import Mathlib

/-!
Verification of the workspace-connect mailbox watch / notification / webhook
pipeline against its source.

The development shallowly embeds the TypeScript source:

* `src/lib/db/schema.ts` (table definitions, as column/constraint data);
* `src/lib/services/gmail-api.ts` (provider client and pub/sub poller);
* `src/lib/services/email-watcher.ts` (watch lifecycle);
* the pub/sub route handler and webhook service (`src/unnamed/part_005`,
  `src/unnamed/part_009`).

External collaborators (the Gmail REST API, the network `fetch`, base64 and
JSON primitives of the JS runtime, `crypto.randomUUID`) are modelled as an
explicit environment record; the HMAC-SHA256 used by the webhook signatures
is implemented concretely, following FIPS 180-4 / RFC 2104, because claims
C5 and C9 are about it.  Machine integers are `Nat` with explicit reduction
modulo 2^32.
-/

/-! ## Bytes, UTF-8 and hex -/

/-- Reduce to a 32-bit word, as JS bitwise-free modular arithmetic on
Node's internal 32-bit hash words. -/
def w32 (n : Nat) : Nat := n % 4294967296

/-- Right rotation of a 32-bit word. -/
def rotr (n x : Nat) : Nat := w32 ((x >>> n) ||| (x <<< (32 - n)))

/-- Big-endian byte serialization of `n` into `k` bytes. -/
def beBytes : Nat → Nat → List Nat
  | 0, _ => []
  | k + 1, n => beBytes k (n / 256) ++ [n % 256]

/-- UTF-8 encoding of one character (Lean `Char` excludes surrogates, so
this agrees with Node's `Buffer.from(s, "utf8")` on well-formed strings). -/
def utf8EncodeChar (c : Char) : List Nat :=
  let n := c.toNat
  if n < 128 then [n]
  else if n < 2048 then [192 ||| (n >>> 6), 128 ||| (n &&& 63)]
  else if n < 65536 then
    [224 ||| (n >>> 12), 128 ||| ((n >>> 6) &&& 63), 128 ||| (n &&& 63)]
  else
    [240 ||| (n >>> 18), 128 ||| ((n >>> 12) &&& 63),
     128 ||| ((n >>> 6) &&& 63), 128 ||| (n &&& 63)]

/-- UTF-8 bytes of a string, the byte view `Buffer.from(s)` takes. -/
def utf8Bytes (s : String) : List Nat := (s.data.map utf8EncodeChar).flatten

/-- Lower-case hexadecimal digits. -/
def hexDigits : List Char :=
  ['0', '1', '2', '3', '4', '5', '6', '7'] ++
    ['8', '9'] ++ ['a', 'b', 'c', 'd', 'e', 'f']

/-- One hex digit. -/
def hexDigit (n : Nat) : Char := hexDigits.getD n '0'

/-- Two hex characters of a byte. -/
def byteHex (b : Nat) : List Char := [hexDigit (b / 16 % 16), hexDigit (b % 16)]

/-- Lower-case hex rendering of a byte list, as `digest("hex")`. -/
def bytesToHex (bs : List Nat) : String := String.mk ((bs.map byteHex).flatten)

/-! ## SHA-256 (FIPS 180-4) -/

/-- The eight working registers of the SHA-256 compression function. -/
structure Sha256State where
  a : Nat
  b : Nat
  c : Nat
  d : Nat
  e : Nat
  f : Nat
  g : Nat
  h : Nat

/-- SHA-256 round constants. -/
def sha256K : List Nat :=
  [1116352408, 1899447441, 3049323471, 3921009573, 961987163,
   1508970993, 2453635748, 2870763221, 3624381080, 310598401,
   607225278, 1426881987, 1925078388, 2162078206, 2614888103,
   3248222580, 3835390401, 4022224774, 264347078, 604807628,
   770255983, 1249150122, 1555081692, 1996064986, 2554220882,
   2821834349, 2952996808, 3210313671, 3336571891, 3584528711,
   113926993, 338241895, 666307205, 773529912, 1294757372,
   1396182291, 1695183700, 1986661051, 2177026350, 2456956037,
   2730485921, 2820302411, 3259730800, 3345764771, 3516065817,
   3600352804, 4094571909, 275423344, 430227734, 506948616,
   659060556, 883997877, 958139571, 1322822218, 1537002063,
   1747873779, 1955562222, 2024104815, 2227730452, 2361852424,
   2428436474, 2756734187, 3204031479, 3329325298]

/-- SHA-256 initial hash value. -/
def sha256InitH : Sha256State :=
  ⟨1779033703, 3144134277, 1013904242, 2773480762,
   1359893119, 2600822924, 528734635, 1541459225⟩

/-- Merkle–Damgård padding: a 1 bit, zeros, and the 64-bit bit length. -/
def sha256Pad (msg : List Nat) : List Nat :=
  msg ++ [128] ++ List.replicate ((64 - (msg.length + 9) % 64) % 64) 0 ++
    beBytes 8 (8 * msg.length)

/-- Pack big-endian bytes into 32-bit words. -/
def bytesToWords : List Nat → List Nat
  | b0 :: b1 :: b2 :: b3 :: rest =>
    (((b0 * 256 + b1) * 256 + b2) * 256 + b3) :: bytesToWords rest
  | _ => []

/-- Split a word list into 16-word blocks (a padded message is always a
whole number of blocks, so the ragged case cannot arise). -/
def toBlocks : List Nat → List (List Nat)
  | w1 :: w2 :: w3 :: w4 :: w5 :: w6 :: w7 :: w8 ::
    w9 :: w10 :: w11 :: w12 :: w13 :: w14 :: w15 :: w16 :: rest =>
    [w1, w2, w3, w4, w5, w6, w7, w8,
     w9, w10, w11, w12, w13, w14, w15, w16] :: toBlocks rest
  | [] => []
  | other => [other]

/-- Extend a 16-word block by `k` further schedule words. -/
def sha256Extend (w : Array Nat) : Nat → Array Nat
  | 0 => w
  | k + 1 =>
    let i := w.size
    let w15 := w.getD (i - 15) 0
    let w2 := w.getD (i - 2) 0
    let w16 := w.getD (i - 16) 0
    let w7 := w.getD (i - 7) 0
    let s0 := rotr 7 w15 ^^^ rotr 18 w15 ^^^ (w15 >>> 3)
    let s1 := rotr 17 w2 ^^^ rotr 19 w2 ^^^ (w2 >>> 10)
    sha256Extend (w.push (w32 (w16 + s0 + w7 + s1))) k

/-- The 64 compression rounds. -/
def sha256Compress (st : Sha256State) (w : Array Nat) : Sha256State :=
  (List.range 64).foldl
    (fun s i =>
      let ki := sha256K.getD i 0
      let wi := w.getD i 0
      let bigS1 := rotr 6 s.e ^^^ rotr 11 s.e ^^^ rotr 25 s.e
      let ch := (s.e &&& s.f) ^^^ ((s.e ^^^ 4294967295) &&& s.g)
      let temp1 := w32 (s.h + bigS1 + ch + ki + wi)
      let bigS0 := rotr 2 s.a ^^^ rotr 13 s.a ^^^ rotr 22 s.a
      let maj := (s.a &&& s.b) ^^^ (s.a &&& s.c) ^^^ (s.b &&& s.c)
      let temp2 := w32 (bigS0 + maj)
      ⟨w32 (temp1 + temp2), s.a, s.b, s.c, w32 (s.d + temp1), s.e, s.f, s.g⟩)
    st

/-- Process one 512-bit block. -/
def sha256ProcessBlock (st : Sha256State) (block : List Nat) : Sha256State :=
  let w := sha256Extend block.toArray 48
  let t := sha256Compress st w
  ⟨w32 (st.a + t.a), w32 (st.b + t.b), w32 (st.c + t.c), w32 (st.d + t.d),
   w32 (st.e + t.e), w32 (st.f + t.f), w32 (st.g + t.g), w32 (st.h + t.h)⟩

/-- SHA-256 digest (32 bytes) of a byte list. -/
def sha256Bytes (msg : List Nat) : List Nat :=
  let st := (toBlocks (bytesToWords (sha256Pad msg))).foldl
    sha256ProcessBlock sha256InitH
  beBytes 4 st.a ++ beBytes 4 st.b ++ beBytes 4 st.c ++ beBytes 4 st.d ++
    beBytes 4 st.e ++ beBytes 4 st.f ++ beBytes 4 st.g ++ beBytes 4 st.h

/-- HMAC-SHA256 (RFC 2104) over byte lists. -/
def hmacSha256 (key msg : List Nat) : List Nat :=
  let k0 := if key.length > 64 then sha256Bytes key else key
  let k1 := k0 ++ List.replicate (64 - k0.length) 0
  let ipad := k1.map (fun b => b ^^^ 54)
  let opad := k1.map (fun b => b ^^^ 92)
  sha256Bytes (opad ++ sha256Bytes (ipad ++ msg))

/-! ## Webhook signatures (`src/unnamed/part_009`,
`src/packages/workspace-connect/src/core/utils.ts`) -/

/-- `createWebhookSignature`: hex HMAC-SHA256 of the payload under the
secret, as `crypto.createHmac("sha256", secret).update(payload).digest("hex")`. -/
def createWebhookSignature (payload : String) (secret : String) : String :=
  bytesToHex (hmacSha256 (utf8Bytes secret) (utf8Bytes payload))

/-- Node's `crypto.timingSafeEqual`: throws unless the two buffers have the
same byte length, otherwise compares them. -/
def timingSafeEqual (x y : List Nat) : Except String Bool :=
  if x.length = y.length then .ok (x == y)
  else .error "Input buffers must have the same byte length"

/-- `verifyWebhookSignature`: recompute the signature and compare with
`timingSafeEqual` over the UTF-8 bytes of the two strings. -/
def verifyWebhookSignature (payload : String) (signature : String)
    (secret : String) : Except String Bool :=
  let expectedSignature := createWebhookSignature payload secret
  timingSafeEqual (utf8Bytes signature) (utf8Bytes expectedSignature)

/-! ### Length facts about the signature pipeline -/

theorem beBytes_length (k n : Nat) : (beBytes k n).length = k := by
  induction k generalizing n with
  | zero => rfl
  | succ k ih => simp [beBytes, ih]

theorem sha256Bytes_length (msg : List Nat) : (sha256Bytes msg).length = 32 := by
  simp [sha256Bytes, beBytes_length]

theorem hmacSha256_length (key msg : List Nat) :
    (hmacSha256 key msg).length = 32 := by
  simp [hmacSha256, sha256Bytes_length]

theorem byteHex_length (b : Nat) : (byteHex b).length = 2 := rfl

theorem bytesToHex_data_length (bs : List Nat) :
    (bytesToHex bs).data.length = 2 * bs.length := by
  induction bs with
  | nil => rfl
  | cons b bs ih =>
    simp only [bytesToHex, String.mk] at ih ⊢
    simp [List.flatten, byteHex_length, ih]
    omega

theorem hexDigit_toNat_lt (n : Nat) : (hexDigit n).toNat < 128 := by
  by_cases hn : n < 16
  · interval_cases n <;> decide
  · have hlen : hexDigits.length ≤ n := by
      simp only [hexDigits, List.length]; omega
    simp [hexDigit, List.getD, List.getElem?_eq_none hlen]

theorem utf8EncodeChar_ascii {c : Char} (h : c.toNat < 128) :
    utf8EncodeChar c = [c.toNat] := by
  simp [utf8EncodeChar, h]

theorem utf8Bytes_bytesToHex_length (bs : List Nat) :
    (utf8Bytes (bytesToHex bs)).length = 2 * bs.length := by
  have hascii : ∀ c ∈ (bytesToHex bs).data, c.toNat < 128 := by
    intro c hc
    simp only [bytesToHex, String.mk] at hc
    rcases List.mem_flatten.mp hc with ⟨l, hl, hcl⟩
    rcases List.mem_map.mp hl with ⟨b, _, rfl⟩
    simp only [byteHex, List.mem_cons, List.not_mem_nil, or_false] at hcl
    rcases hcl with rfl | rfl
    · exact hexDigit_toNat_lt _
    · exact hexDigit_toNat_lt _
  have hlen : ∀ (l : List Char), (∀ c ∈ l, c.toNat < 128) →
      ((l.map utf8EncodeChar).flatten).length = l.length := by
    intro l
    induction l with
    | nil => intro _; rfl
    | cons c l ih =>
      intro hall
      have hc : c.toNat < 128 := hall c (by simp)
      have := ih (fun x hx => hall x (by simp [hx]))
      simp [utf8EncodeChar_ascii hc, this]
  have h1 := hlen (bytesToHex bs).data hascii
  unfold utf8Bytes
  rw [h1, bytesToHex_data_length]

theorem createWebhookSignature_utf8_length (payload secret : String) :
    (utf8Bytes (createWebhookSignature payload secret)).length = 64 := by
  simp [createWebhookSignature, utf8Bytes_bytesToHex_length, hmacSha256_length]

/-- Round trip: verifying the freshly created signature always succeeds and
returns `true` (the conjunct of the signature property that holds for any
deterministic digest). -/
theorem verify_create_roundtrip (payload secret : String) :
    verifyWebhookSignature payload (createWebhookSignature payload secret)
      secret = .ok true := by
  simp [verifyWebhookSignature, timingSafeEqual]

/-- A same-length signature other than the correct one is rejected with
`false` (the byte-alteration-of-the-signature conjunct, for alterations
that keep the byte length). -/
theorem verify_rejects_altered_signature (payload secret sig : String)
    (hlen : (utf8Bytes sig).length = 64)
    (hne : utf8Bytes sig ≠ utf8Bytes (createWebhookSignature payload secret)) :
    verifyWebhookSignature payload sig secret = .ok false := by
  simp [verifyWebhookSignature, timingSafeEqual,
    createWebhookSignature_utf8_length, hlen, hne]

/-! ## Relational schema as data (`src/lib/db/schema.ts` and the migration
`src/drizzle/0004_curly_mattie_franklin.sql`) -/

/-- One column of a drizzle `pgTable` definition: name, `.notNull()`,
`.unique()` and `.primaryKey()` modifiers. -/
structure ColumnSpec where
  name : String
  nn : Bool
  uniq : Bool
  pk : Bool
deriving DecidableEq

/-- A table: its name, columns, and the column sets carrying a uniqueness
constraint (single-column `.unique()` markers and the primary key, exactly
the `UNIQUE`/`PRIMARY KEY` constraints the generated SQL contains). -/
structure TableSpec where
  name : String
  columns : List ColumnSpec
  uniqueSets : List (List String)
deriving DecidableEq

/-- `emailLog` (`email_log`), schema.ts lines 118-133: `message_id` is
`.notNull()` but carries no `.unique()`. -/
def emailLogTable : TableSpec :=
  { name := "email_log"
    columns :=
      [⟨"id", true, false, true⟩,
       ⟨"gmail_connection_id", true, false, false⟩,
       ⟨"message_id", true, false, false⟩,
       ⟨"thread_id", false, false, false⟩,
       ⟨"from", true, false, false⟩,
       ⟨"to", true, false, false⟩,
       ⟨"subject", false, false, false⟩,
       ⟨"snippet", false, false, false⟩,
       ⟨"direction", true, false, false⟩,
       ⟨"status", true, false, false⟩,
       ⟨"raw_payload", false, false, false⟩,
       ⟨"createdAt", true, false, false⟩]
    uniqueSets := [["id"]] }

/-- `parsedEmails` (`parsed_emails`), schema.ts lines 135-150: `message_id`
is `.notNull().unique()` (constraint `parsed_emails_message_id_unique` in
the migration), a single-column — hence global, not per-connection —
uniqueness constraint. -/
def parsedEmailsTable : TableSpec :=
  { name := "parsed_emails"
    columns :=
      [⟨"id", true, false, true⟩,
       ⟨"gmail_connection_id", true, false, false⟩,
       ⟨"message_id", true, true, false⟩,
       ⟨"thread_id", false, false, false⟩,
       ⟨"from", true, false, false⟩,
       ⟨"to", true, false, false⟩,
       ⟨"raw_email", true, false, false⟩,
       ⟨"html", false, false, false⟩,
       ⟨"text", false, false, false⟩,
       ⟨"attachments", false, false, false⟩,
       ⟨"createdAt", true, false, false⟩,
       ⟨"updatedAt", true, false, false⟩]
    uniqueSets := [["id"], ["message_id"]] }

/-- Does the table carry a uniqueness constraint on exactly this column
set (order-insensitive)? -/
def TableSpec.hasUniqueOn (t : TableSpec) (cols : List String) : Bool :=
  t.uniqueSets.any (fun u => u.length = cols.length && cols.all (u.contains ·))

/-! ## JS falsiness helpers

`a || b` in the source applies to `null`/`undefined` and to the empty
string alike; these helpers make that explicit. -/

/-- JS `a || b` on a nullable string. -/
def jsOr (a : Option String) (b : String) : String :=
  match a with
  | some s => if s == "" then b else s
  | none => b

/-- JS truthiness of a nullable string. -/
def jsTruthyStrOpt (a : Option String) : Bool :=
  match a with
  | some s => s != ""
  | none => false

/-- JS `a || null` on an optional string (empty string collapses to null). -/
def jsOrNullStr (a : Option String) : Option String :=
  match a with
  | some s => if s == "" then none else some s
  | none => none

/-- JS `result.text || nested.text` on two optional strings. -/
def jsOrOpt (a b : Option String) : Option String :=
  if jsTruthyStrOpt a then a else b

/-- JS `\s` character class (the common members). -/
def isJsWhitespace (c : Char) : Bool :=
  c.toNat == 9 || c.toNat == 10 || c.toNat == 11 || c.toNat == 12 ||
  c.toNat == 13 || c.toNat == 32 || c.toNat == 160 || c.toNat == 0x1680 ||
  (0x2000 ≤ c.toNat && c.toNat ≤ 0x200a) || c.toNat == 0x2028 ||
  c.toNat == 0x2029 || c.toNat == 0x202f || c.toNat == 0x205f ||
  c.toNat == 0x3000 || c.toNat == 0xfeff

/-- JS `String.prototype.trim` (strips the `\s` class at both ends). -/
def jsTrim (s : String) : String :=
  String.mk (((s.data.dropWhile isJsWhitespace).reverse.dropWhile
    isJsWhitespace).reverse)

/-- Split a character list at a separator, JS `split` semantics
(an empty input yields one empty field). -/
def splitChar (sep : Char) (l : List Char) : List (List Char) :=
  l.foldr
    (fun c acc =>
      match acc with
      | cur :: rest => if c == sep then [] :: cur :: rest else (c :: cur) :: rest
      | [] => [[c]])
    [[]]

/-- JS `s.split(sep)` for a one-character separator. -/
def jsSplit (sep : Char) (s : String) : List String :=
  (splitChar sep s.data).map String.mk

/-- Character-wise lower-casing (JS `toLowerCase` on ASCII header names). -/
def lowerStr (s : String) : String := String.mk (s.data.map Char.toLower)

/-- JS `e ? ... : null` on a nullable numeric timestamp (`0` is falsy). -/
def jsFalsyIntOpt (o : Option Int) : Option Int :=
  match o with
  | some e => if e == 0 then none else some e
  | none => none

/-! ## Gmail message shape and `GmailAPIService.parseMessage`
(`src/lib/services/gmail-api.ts`) -/

/-- A MIME part of a Gmail API message payload: mime type, filename,
headers, `body.data` / `body.attachmentId` / `body.size`, and optional
nested `parts` (JS distinguishes an absent `parts` from an empty array). -/
inductive GmailPayload : Type where
  | mk : (mimeType : String) → (filename : String) →
      (headers : List (String × String)) → (bodyData : Option String) →
      (bodyAttachmentId : Option String) → (bodySize : Nat) →
      (parts : Option (List GmailPayload)) → GmailPayload

def GmailPayload.mimeType : GmailPayload → String
  | .mk m _ _ _ _ _ _ => m

def GmailPayload.filename : GmailPayload → String
  | .mk _ f _ _ _ _ _ => f

def GmailPayload.headers : GmailPayload → List (String × String)
  | .mk _ _ h _ _ _ _ => h

def GmailPayload.bodyData : GmailPayload → Option String
  | .mk _ _ _ d _ _ _ => d

def GmailPayload.bodyAttachmentId : GmailPayload → Option String
  | .mk _ _ _ _ a _ _ => a

def GmailPayload.bodySize : GmailPayload → Nat
  | .mk _ _ _ _ _ s _ => s

def GmailPayload.parts : GmailPayload → Option (List GmailPayload)
  | .mk _ _ _ _ _ _ p => p

/-- A full Gmail API message (`users.messages.get` response). -/
structure GmailMessage where
  id : String
  threadId : String
  labelIds : List String
  snippet : String
  payload : GmailPayload

/-- Result of `extractBody`: optional plain-text and html bodies. -/
structure ExtractedBody where
  text : Option String
  html : Option String
deriving DecidableEq

/-- `GmailAPIService.extractBody`, with base64 decoding (`Buffer.from(data,
"base64").toString("utf-8")`) supplied as the runtime primitive `dec`. -/
def extractBody (dec : String → String) : GmailPayload → ExtractedBody
  | .mk mimeType _ _ bodyData _ _ parts =>
    if jsTruthyStrOpt bodyData then
      let decoded := dec (bodyData.getD "")
      if mimeType == "text/html" then ⟨none, some decoded⟩
      else ⟨some decoded, none⟩
    else
      match parts with
      | some ps =>
        ps.attach.foldl
          (fun acc pp =>
            let p := pp.1
            if p.mimeType == "text/plain" && jsTruthyStrOpt p.bodyData then
              { acc with text := some (dec (p.bodyData.getD "")) }
            else if p.mimeType == "text/html" && jsTruthyStrOpt p.bodyData then
              { acc with html := some (dec (p.bodyData.getD "")) }
            else if p.parts.isSome then
              let nested := extractBody dec p
              ⟨jsOrOpt acc.text nested.text, jsOrOpt acc.html nested.html⟩
            else acc)
          ⟨none, none⟩
      | none => ⟨none, none⟩
termination_by p => sizeOf p
decreasing_by
  have hm := List.sizeOf_lt_of_mem pp.2
  simp only [GmailPayload.mk.sizeOf_spec]
  have : sizeOf ps < 1 + sizeOf (some ps) := by simp; omega
  omega

/-- Attachment metadata collected by `extractAttachments`. -/
structure AttachmentMeta where
  filename : String
  contentType : String
  size : Nat
  attachmentId : String
deriving DecidableEq

/-- The inner `processPart` of `GmailAPIService.extractAttachments`. -/
def processPart (p : GmailPayload) : List AttachmentMeta :=
  (if p.filename != "" && jsTruthyStrOpt p.bodyAttachmentId then
    [⟨p.filename,
      (if p.mimeType == "" then "application/octet-stream" else p.mimeType),
      p.bodySize, p.bodyAttachmentId.getD ""⟩]
  else []) ++
  match hp : p.parts with
  | some ps => ps.attach.foldl (fun acc np => acc ++ processPart np.1) []
  | none => []
termination_by sizeOf p
decreasing_by
  have hm := List.sizeOf_lt_of_mem np.2
  cases p with
  | mk m f h d a s pr =>
    simp only [GmailPayload.parts] at hp
    subst hp
    simp only [GmailPayload.mk.sizeOf_spec]
    have hlt : sizeOf ps < 1 + sizeOf (some ps) := by simp; omega
    omega

/-- Sanity instance: `extractBody` on a two-part multipart message picks up
the text and html parts. -/
example :
    extractBody id
      (.mk "multipart/alternative" "" [] none none 0
        (some [.mk "text/plain" "" [] (some "hello") none 0 none,
               .mk "text/html" "" [] (some "<p>hello</p>") none 0 none]))
      = ⟨some "hello", some "<p>hello</p>"⟩ := by
  rw [extractBody]
  simp [jsTruthyStrOpt, GmailPayload.mimeType, GmailPayload.bodyData,
    GmailPayload.parts, List.attach, List.attachWith]

/-- `GmailAPIService.extractAttachments`. -/
def extractAttachments (payload : GmailPayload) : List AttachmentMeta :=
  match payload.parts with
  | some ps => ps.foldl (fun acc p => acc ++ processPart p) []
  | none =>
    if payload.filename != "" && jsTruthyStrOpt payload.bodyAttachmentId then
      [⟨payload.filename,
        (if payload.mimeType == "" then "application/octet-stream"
         else payload.mimeType),
        payload.bodySize, payload.bodyAttachmentId.getD ""⟩]
    else []

/-- Header lookup: `headers.find(h => lowercase name match)?.value || ""`. -/
def getHeader (headers : List (String × String)) (name : String) : String :=
  match headers.find? (fun h => lowerStr h.1 == lowerStr name) with
  | some h => h.2
  | none => ""

/-- The record `GmailAPIService.parseMessage` returns. -/
structure ParsedMessage where
  id : String
  threadId : String
  labelIds : List String
  snippet : String
  from_ : String
  to_ : String
  subject : String
  date : String
  messageId : String
  inReplyTo : String
  references : String
  body : ExtractedBody

/-- `GmailAPIService.parseMessage`. -/
def parseMessage (dec : String → String) (m : GmailMessage) : ParsedMessage :=
  let headers := m.payload.headers
  { id := m.id
    threadId := m.threadId
    labelIds := m.labelIds
    snippet := m.snippet
    from_ := getHeader headers "from"
    to_ := getHeader headers "to"
    subject := getHeader headers "subject"
    date := getHeader headers "date"
    messageId := getHeader headers "message-id"
    inReplyTo := getHeader headers "in-reply-to"
    references := getHeader headers "references"
    body := extractBody dec m.payload }

/-! ## `parseEmailAddress` / `parseEmailAddresses` (`src/unnamed/part_009`)

The source matches the anchored regex
`(an optional quoted-name prefix ending in one whitespace charater,
then an optional angle-bracketed address)`; the functions below replay that
pattern with the engine's greedy, backtracking order of alternatives. -/



/-- Tail of the pattern without the optional leading angle bracket:
one-or-more non-gt characters, then an optional closing bracket, then the
end anchor. -/
def emailSuffixNoLt (u : List Char) : Option (List Char) :=
  let g2 := u.takeWhile (· != '>')
  let rest := u.drop g2.length
  if g2.isEmpty then none
  else if rest.isEmpty || rest == ['>'] then some g2
  else none

/-- Tail of the pattern: prefer consuming a leading angle bracket, falling
back (regex backtracking) to including it in the captured address. -/
def emailSuffix (t : List Char) : Option (List Char) :=
  match t with
  | '<' :: rest =>
    match emailSuffixNoLt rest with
    | some r => some r
    | none => emailSuffixNoLt t
  | _ => emailSuffixNoLt t

/-- One attempt at the quoted-name prefix with a fixed captured-name
length: optionally consume a closing quote (preferred), then require one
whitespace character, then match the suffix. -/
def prefixStep (cs : List Char) (len : Nat) : Option (List Char × List Char) :=
  let g1 := cs.take len
  let rest1 := cs.drop len
  let afterQuote :=
    match rest1 with
    | '"' :: rest2 =>
      match rest2 with
      | c :: rest3 =>
        if isJsWhitespace c then (emailSuffix rest3).map (fun e => (g1, e))
        else none
      | [] => none
    | _ => none
  match afterQuote with
  | some r => some r
  | none =>
    match rest1 with
    | c :: rest3 =>
      if isJsWhitespace c then (emailSuffix rest3).map (fun e => (g1, e))
      else none
    | [] => none

/-- Greedy name capture: try the longest run of non-quote characters
first, backtracking to shorter captures. -/
def prefixAttempt (cs : List Char) : Nat → Option (List Char × List Char)
  | 0 => prefixStep cs 0
  | len + 1 =>
    match prefixStep cs (len + 1) with
    | some r => some r
    | none => prefixAttempt cs len

/-- Whole-pattern match: group 1 (the optional display name, `none` when
the optional prefix group did not participate) and group 2 (the address). -/
def regexEmailMatch (s : List Char) : Option (Option (List Char) × List Char) :=
  let withPrefix :=
    match s with
    | '"' :: cs =>
      match prefixAttempt cs (cs.takeWhile (· != '"')).length with
      | some (g1, e) => some (some g1, e)
      | none => (prefixAttempt s 0).map (fun x => (some x.1, x.2))
    | _ =>
      (prefixAttempt s (s.takeWhile (· != '"')).length).map
        (fun x => (some x.1, x.2))
  match withPrefix with
  | some res => some res
  | none => (emailSuffix s).map (fun e => (none, e))

/-- `{email, name?}` as produced by `parseEmailAddress`. -/
structure EmailAddr where
  email : String
  name : Option String
deriving DecidableEq

/-- `parseEmailAddress`: regex match, `name = match[1]?.trim() ||
undefined`, `email = match[2].trim()`; on no match, the trimmed input. -/
def parseEmailAddress (address : String) : EmailAddr :=
  match regexEmailMatch address.data with
  | some (g1, g2) =>
    { email := jsTrim (String.mk g2)
      name :=
        match g1 with
        | some l => if jsTrim (String.mk l) == "" then none
                    else some (jsTrim (String.mk l))
        | none => none }
  | none => { email := jsTrim address, name := none }

/-- `parseEmailAddresses` on an array argument: split each entry on commas
and parse each trimmed piece. -/
def parseEmailAddressesList (addrs : List String) : List EmailAddr :=
  (addrs.flatMap (fun a => jsSplit ',' a)).map
    (fun a => parseEmailAddress (jsTrim a))

/-- `parseEmailAddresses` on a single-string argument. -/
def parseEmailAddresses (s : String) : List EmailAddr :=
  parseEmailAddressesList [s]

/-- Sanity instances for the regex model, matching the JS engine. -/
example : parseEmailAddress "alice@example.com" =
    ⟨"alice@example.com", none⟩ := by decide
example : parseEmailAddress "Alice A <alice@example.com>" =
    ⟨"alice@example.com", some "Alice A"⟩ := by decide
example : parseEmailAddress "\x22Alice A\x22 <alice@example.com>" =
    ⟨"alice@example.com", some "Alice A"⟩ := by decide
example : parseEmailAddress "<alice@example.com>" =
    ⟨"alice@example.com", none⟩ := by decide

/-! ## Database rows (`src/lib/db/schema.ts`) and system state

Timestamps are milliseconds since the epoch (`Int`), the value underlying
a JS `Date`.  Nullable columns are `Option`s. -/

/-- One `gmail_connection` row. -/
structure GmailConnection where
  id : String
  userId : String
  email : String
  connectionType : String
  gmailAccessToken : Option String
  gmailRefreshToken : Option String
  gmailTokenExpiry : Option Int
  gmailHistoryId : Option String
  gmailPubsubTopic : Option String
  gmailWatchExpiration : Option Int
  isActive : Bool
  lastSyncedAt : Option Int
  createdAt : Int
  updatedAt : Int

/-- One `email_log` row (`raw_payload` holds the full Gmail message). -/
structure EmailLogRow where
  id : String
  gmailConnectionId : String
  messageId : String
  threadId : String
  from_ : String
  to_ : List String
  subject : String
  snippet : String
  direction : String
  status : String
  rawPayload : GmailMessage
  createdAt : Int

/-- One `parsed_emails` row. -/
structure ParsedEmailRow where
  id : String
  gmailConnectionId : String
  messageId : String
  threadId : String
  from_ : String
  to_ : List String
  rawEmail : GmailMessage
  html : Option String
  text : Option String
  attachments : Option (List AttachmentMeta)
  createdAt : Int
  updatedAt : Int

/-- One `webhook` row. -/
structure WebhookRow where
  id : String
  userId : String
  gmailConnectionId : String
  url : String
  secret : Option String
  isActive : Bool
  events : List String
  createdAt : Int
  updatedAt : Int

/-- The tables the pipeline touches. -/
structure Db where
  connections : List GmailConnection
  emailLogs : List EmailLogRow
  parsedEmails : List ParsedEmailRow
  webhooks : List WebhookRow

/-- Database plus the `crypto.randomUUID` call counter. -/
structure Sys where
  db : Db
  uuidSeq : Nat

/-! ## The webhook payload (`WebhookPayload` interface, part_009) -/

/-- Attachment entry of the payload interface. -/
structure PayloadAttachment where
  filename : String
  contentType : String
  size : Nat
deriving DecidableEq

/-- `WebhookPayload.data`. -/
structure PayloadData where
  id : String
  from_ : EmailAddr
  to_ : List EmailAddr
  cc : Option (List EmailAddr)
  bcc : Option (List EmailAddr)
  subject : String
  text : Option String
  html : Option String
  snippet : Option String
  thread_id : Option String
  in_reply_to : Option String
  references : Option (List String)
  attachments : Option (List PayloadAttachment)
  headers : Option (List (String × String))
deriving DecidableEq

/-- The webhook payload delivered to subscribers. -/
structure WebhookPayload where
  type : String
  id : String
  timestamp : String
  data : PayloadData
deriving DecidableEq

/-! ## The environment: external collaborators

Everything the pipeline calls outside this repository — the Gmail REST
API, OAuth refresh, the network `fetch`, pub/sub acknowledgement, the JS
runtime's base64/JSON/UUID/clock primitives — is a field of `Env`. -/

/-- A Gmail `users.history.list` item (only `messagesAdded` is consumed;
JS distinguishes an absent array from an empty one). -/
structure MessageRef where
  id : String

/-- `messagesAdded` entry: `addedMsg.message`. -/
structure MessagesAddedEntry where
  message : MessageRef

/-- One history record. -/
structure HistoryItem where
  messagesAdded : Option (List MessagesAddedEntry)

/-- `getHistory` result: `{history: data.history || [], historyId}`. -/
structure HistoryResponse where
  history : List HistoryItem
  historyId : String

/-- Outcome of one `fetch`: a response with a status code, or a rejected
promise (network error). -/
inductive FetchOutcome : Type where
  | ok (status : Nat)
  | netError (msg : String)
deriving DecidableEq

/-- `users.watch` response (`expiration` is the numeric value of the
provider's epoch-milliseconds string). -/
structure WatchResult where
  historyId : Option String
  expiration : Option Int

/-- `oauth2Client.refreshAccessToken` credentials. -/
structure RefreshedCreds where
  accessToken : Option String
  expiryDate : Option Int

/-- The external world. -/
structure Env where
  historyList : String → Except String HistoryResponse
  usersMessagesGet : String → Except String GmailMessage
  fetch : String → FetchOutcome
  usersWatch : Except String WatchResult
  usersStop : Except String Unit
  oauthRefresh : Except String RefreshedCreds
  decode : String → String
  stringifyPayload : WebhookPayload → String
  uuid : Nat → String
  now : Int
  nowIso : String

/-- `crypto.randomUUID()`: the next value of the environment's UUID
stream. -/
def freshUuid (env : Env) (s : Sys) : String × Sys :=
  (env.uuid s.uuidSeq, { s with uuidSeq := s.uuidSeq + 1 })

/-- Externally visible effects, recorded in order. -/
inductive Act : Type where
  | getHistoryCall (startHistoryId : String)
  | getMessageCall (messageId : String)
  | insertEmailLog (connectionId : String) (messageId : String)
  | webhookPost (webhookId : String) (url : String) (eventType : String)
      (dataId : String) (signature : String) (status : Nat)
  | insertParsedEmail (messageId : String)
  | updateParsedEmail (messageId : String)
  | updateCursor (connectionId : String) (historyId : String)
  | tokenRefreshPersist (connectionId : String)
  | watchRegister (connectionId : String)
  | watchStop (connectionId : String)
  | clearWatch (connectionId : String)
  | refreshAttempt (connectionId : String)
  | ackMessage
deriving DecidableEq

/-- Map an update over the connection rows matching an id (a drizzle
`update ... where eq(gmailConnection.id, id)`). -/
def updateConnection (s : Sys) (id : String)
    (f : GmailConnection → GmailConnection) : Sys :=
  let conns := s.db.connections.map (fun c => if c.id == id then f c else c)
  { s with db := { s.db with connections := conns } }

/-! ## Webhook service (`src/unnamed/part_009`) -/

/-- The `try` block of `sendWebhook`: sign the serialized payload, then
POST it; a network failure rejects (is thrown). -/
def sendWebhookAttempt (env : Env) (webhookConfig : WebhookRow)
    (payload : WebhookPayload) : Except String (List Act) :=
  let signature := createWebhookSignature (env.stringifyPayload payload)
    (jsOr webhookConfig.secret "")
  match env.fetch webhookConfig.url with
  | .ok status =>
    .ok [.webhookPost webhookConfig.id webhookConfig.url payload.type
      payload.data.id signature status]
  | .netError m => .error m

/-- `sendWebhook`: look the webhook up, skip if missing / inactive / not
subscribed to the event type, and run the delivery attempt with its
`catch` (a failure is logged, never rethrown). -/
def sendWebhook (env : Env) (db : Db) (webhookId : String)
    (payload : WebhookPayload) : List Act :=
  match db.webhooks.find? (fun w => w.id == webhookId) with
  | none => []
  | some webhookConfig =>
    if !webhookConfig.isActive then []
    else if !(webhookConfig.events.contains payload.type) then []
    else
      match sendWebhookAttempt env webhookConfig payload with
      | .ok acts => acts
      | .error _ => []

/-- `sendWebhooksForConnection`: all webhooks of the connection, one
`sendWebhook` each (`Promise.all`, modelled in list order). -/
def sendWebhooksForConnection (env : Env) (db : Db) (connectionId : String)
    (payload : WebhookPayload) : List Act :=
  ((db.webhooks.filter (fun w => w.gmailConnectionId == connectionId)).map
    (fun wh => sendWebhook env db wh.id payload)).flatten

/-! ## `createGmailAPIService` (`src/lib/services/gmail-api.ts`) -/

/-- `createGmailAPIService`: load the connection, validate it, and
transparently refresh and persist the access token when the stored expiry
is in the past.  The third component is the thrown error, if any; state
and actions already performed are kept either way. -/
def createGmailAPIService (env : Env) (s : Sys) (connectionId : String) :
    Sys × List Act × Option String :=
  match s.db.connections.find? (fun c => c.id == connectionId) with
  | none => (s, [], some "Gmail connection not found")
  | some connection =>
    if connection.connectionType != "api" then
      (s, [], some "Connection is not configured for Gmail API")
    else if !(jsTruthyStrOpt connection.gmailAccessToken &&
        jsTruthyStrOpt connection.gmailRefreshToken) then
      (s, [], some "Gmail connection missing tokens")
    else
      match connection.gmailTokenExpiry with
      | some expiry =>
        if expiry < env.now then
          match env.oauthRefresh with
          | .error e => (s, [], some ("Failed to refresh access token: " ++ e))
          | .ok creds =>
            (updateConnection s connectionId (fun c =>
              { c with gmailAccessToken := some (jsOr creds.accessToken "")
                       gmailTokenExpiry := creds.expiryDate
                       updatedAt := env.now }),
             [.tokenRefreshPersist connectionId], none)
        else (s, [], none)
      | none => (s, [], none)

/-! ## The notification pipeline (`src/unnamed/part_005` and the pub/sub
poller half of `src/lib/services/gmail-api.ts`) -/

/-- The `email.received` webhook payload both `processNewMessage`
implementations build. -/
def mkReceivedPayload (env : Env) (evtUuid : String)
    (parsed : ParsedMessage) : WebhookPayload :=
  { type := "email.received"
    id := "evt_" ++ evtUuid
    timestamp := env.nowIso
    data :=
      { id := parsed.id
        from_ := parseEmailAddress parsed.from_
        to_ := parseEmailAddresses parsed.to_
        cc := none
        bcc := none
        subject := parsed.subject
        text := parsed.body.text
        html := parsed.body.html
        snippet := some parsed.snippet
        thread_id := some parsed.threadId
        in_reply_to := some parsed.inReplyTo
        references := if parsed.references != "" then
            some (jsSplit ' ' parsed.references)
          else none
        attachments := none
        headers := some [("message-id", parsed.messageId),
                         ("date", parsed.date)] } }

/-- `storeParsedEmail` (identical in the route and the poller): upsert
into `parsed_emails` keyed on the message id alone; its `try/catch` keeps
failures from propagating (no modelled step throws). -/
def storeParsedEmail (env : Env) (s : Sys) (connectionId : String)
    (rawMessage : GmailMessage) (parsed : ParsedMessage) : Sys × List Act :=
  let attachments := extractAttachments rawMessage.payload
  let toAddresses := parseEmailAddresses (jsOr (some parsed.to_) "")
  let existing := s.db.parsedEmails.find? (fun r => r.messageId == parsed.id)
  let u := freshUuid env s
  let s1 := u.2
  let data : ParsedEmailRow :=
    { id := u.1
      gmailConnectionId := connectionId
      messageId := parsed.id
      threadId := parsed.threadId
      from_ := parsed.from_
      to_ := toAddresses.map (·.email)
      rawEmail := rawMessage
      html := jsOrNullStr parsed.body.html
      text := jsOrNullStr parsed.body.text
      attachments := if attachments.length > 0 then some attachments else none
      createdAt := env.now
      updatedAt := env.now }
  match existing with
  | some ex =>
    let rows := s1.db.parsedEmails.map (fun r =>
      if r.messageId == parsed.id then
        { data with id := ex.id, createdAt := ex.createdAt }
      else r)
    ({ s1 with db := { s1.db with parsedEmails := rows } },
     [.updateParsedEmail parsed.id])
  | none =>
    let rows := s1.db.parsedEmails ++ [data]
    ({ s1 with db := { s1.db with parsedEmails := rows } },
     [.insertParsedEmail parsed.id])

/-- The email-log row both `processNewMessage` implementations insert. -/
def mkEmailLogRow (env : Env) (logUuid : String) (connectionId : String)
    (fullMessage : GmailMessage) (parsed : ParsedMessage) : EmailLogRow :=
  { id := logUuid
    gmailConnectionId := connectionId
    messageId := parsed.id
    threadId := parsed.threadId
    from_ := parsed.from_
    to_ := (parseEmailAddresses parsed.to_).map (·.email)
    subject := parsed.subject
    snippet := parsed.snippet
    direction := "inbound"
    status := "received"
    rawPayload := fullMessage
    createdAt := env.now }

/-- `processNewMessage` of the route handler (part_005, lines 191-268):
fetch the full message, parse it, skip if the email log already holds this
(connection, message id) pair, otherwise insert the log row, fan out the
webhooks, and upsert the parsed email.  Its `try/catch` swallows a fetch
failure. -/
def processNewMessageRoute (env : Env) (s : Sys) (connectionId : String)
    (message : MessageRef) : Sys × List Act :=
  match env.usersMessagesGet message.id with
  | .error _ => (s, [.getMessageCall message.id])
  | .ok fullMessage =>
    let parsed := parseMessage env.decode fullMessage
    match s.db.emailLogs.find? (fun r =>
        r.gmailConnectionId == connectionId && r.messageId == parsed.id) with
    | some _ => (s, [.getMessageCall message.id])
    | none =>
      let u1 := freshUuid env s
      let row := mkEmailLogRow env u1.1 connectionId fullMessage parsed
      let logs := u1.2.db.emailLogs ++ [row]
      let s2 := { u1.2 with db := { u1.2.db with emailLogs := logs } }
      let u2 := freshUuid env s2
      let payload := mkReceivedPayload env u2.1 parsed
      let fanout := sendWebhooksForConnection env u2.2.db connectionId payload
      let sp := storeParsedEmail env u2.2 connectionId fullMessage parsed
      (sp.1, [.getMessageCall message.id,
              .insertEmailLog connectionId parsed.id] ++ fanout ++ sp.2)

/-- `processNewMessage` of the pub/sub poller
(gmail-pubsub-poller half of `src/lib/services/gmail-api.ts`): identical
except that it performs NO duplicate check before inserting. -/
def processNewMessagePoller (env : Env) (s : Sys) (connectionId : String)
    (message : MessageRef) : Sys × List Act :=
  match env.usersMessagesGet message.id with
  | .error _ => (s, [.getMessageCall message.id])
  | .ok fullMessage =>
    let parsed := parseMessage env.decode fullMessage
    let u1 := freshUuid env s
    let row := mkEmailLogRow env u1.1 connectionId fullMessage parsed
    let logs := u1.2.db.emailLogs ++ [row]
    let s2 := { u1.2 with db := { u1.2.db with emailLogs := logs } }
    let u2 := freshUuid env s2
    let payload := mkReceivedPayload env u2.1 parsed
    let fanout := sendWebhooksForConnection env u2.2.db connectionId payload
    let sp := storeParsedEmail env u2.2 connectionId fullMessage parsed
    (sp.1, [.getMessageCall message.id,
            .insertEmailLog connectionId parsed.id] ++ fanout ++ sp.2)

/-- The double loop over history items and their `messagesAdded`,
parameterized by which `processNewMessage` to call. -/
def processHistory (proc : Env → Sys → String → MessageRef → Sys × List Act)
    (env : Env) (s : Sys) (connectionId : String)
    (items : List HistoryItem) : Sys × List Act :=
  items.foldl
    (fun acc item =>
      match item.messagesAdded with
      | none => acc
      | some added =>
        added.foldl
          (fun acc2 addedMsg =>
            let r := proc env acc2.1 connectionId addedMsg.message
            (r.1, acc2.2 ++ r.2))
          acc)
    (s, [])

/-- What the route handler returns, plus the reached system state and the
action trace. -/
structure HandlerResult where
  sys : Sys
  actions : List Act
  status : Nat
  success : Bool
  errorMsg : Option String

/-- The pub/sub branch of the route handler's `POST` (part_005, lines
53-105), applied to the already-decoded notification: resolve the
connection by address (404 if absent), build the service (transparent
token refresh), fetch the history delta from the stored cursor — falling
back to the notification's `historyId` only when no cursor is stored —
process every added message, then overwrite the cursor.  Any thrown error
is caught by the handler's catch-all, producing a 500. -/
def handleGmailNotification (env : Env) (s : Sys) (emailAddress : String)
    (historyId : String) : HandlerResult :=
  match s.db.connections.find? (fun c => c.email == emailAddress) with
  | none => ⟨s, [], 404, false, some "Gmail connection not found"⟩
  | some connection =>
    match createGmailAPIService env s connection.id with
    | (s1, acts0, some e) => ⟨s1, acts0, 500, false, some e⟩
    | (s1, acts0, none) =>
      let startHistoryId := jsOr connection.gmailHistoryId historyId
      match env.historyList startHistoryId with
      | .error e =>
        ⟨s1, acts0 ++ [.getHistoryCall startHistoryId], 500, false,
         some ("Failed to get history: " ++ e)⟩
      | .ok history =>
        let pr := processHistory processNewMessageRoute env s1 connection.id
          history.history
        let s3 := updateConnection pr.1 connection.id (fun c =>
          { c with gmailHistoryId := some history.historyId
                   lastSyncedAt := some env.now
                   updatedAt := env.now })
        ⟨s3,
         acts0 ++ [.getHistoryCall startHistoryId] ++ pr.2 ++
           [.updateCursor connection.id history.historyId],
         200, true, none⟩

/-- One pub/sub message of `pollForNotifications` (the poller half of
`src/lib/services/gmail-api.ts`): same sync pass, but an unknown address
acknowledges the message and moves on, while any thrown error skips the
acknowledgement so the message is redelivered.  The Boolean records
whether the message was acked. -/
def pollerHandleNotification (env : Env) (s : Sys) (emailAddress : String)
    (historyId : String) : Sys × List Act × Bool :=
  match s.db.connections.find? (fun c => c.email == emailAddress) with
  | none => (s, [.ackMessage], true)
  | some connection =>
    match createGmailAPIService env s connection.id with
    | (s1, acts0, some _) => (s1, acts0, false)
    | (s1, acts0, none) =>
      let startHistoryId := jsOr connection.gmailHistoryId historyId
      match env.historyList startHistoryId with
      | .error _ => (s1, acts0 ++ [.getHistoryCall startHistoryId], false)
      | .ok history =>
        let pr := processHistory processNewMessagePoller env s1 connection.id
          history.history
        let s3 := updateConnection pr.1 connection.id (fun c =>
          { c with gmailHistoryId := some history.historyId
                   lastSyncedAt := some env.now
                   updatedAt := env.now })
        (s3,
         acts0 ++ [.getHistoryCall startHistoryId] ++ pr.2 ++
           [.updateCursor connection.id history.historyId, .ackMessage],
         true)

/-! ## Watch lifecycle (`src/lib/services/email-watcher.ts`) -/

/-- `startGmailAPIWatch`: build the service, register the watch
(`users.watch`), persist `{historyId || "", expiration, updatedAt}`.  The
third component is the rethrown error, if any; earlier persisted effects
are kept. -/
def startGmailAPIWatch (env : Env) (s : Sys) (connection : GmailConnection) :
    Sys × List Act × Option String :=
  match createGmailAPIService env s connection.id with
  | (s1, acts0, some e) => (s1, acts0, some e)
  | (s1, acts0, none) =>
    match env.usersWatch with
    | .error e =>
      (s1, acts0, some ("Failed to setup push notifications: " ++ e))
    | .ok result =>
      let s2 := updateConnection s1 connection.id (fun c =>
        { c with gmailHistoryId := some (jsOr result.historyId "")
                 gmailWatchExpiration := jsFalsyIntOpt result.expiration
                 updatedAt := env.now })
      (s2, acts0 ++ [.watchRegister connection.id], none)

/-- `stopGmailAPIWatch`: build the service (which may refresh and persist
credentials), call `users.stop`, then null the watch expiration and touch
`updatedAt`.  Errors are rethrown after logging. -/
def stopGmailAPIWatch (env : Env) (s : Sys) (connection : GmailConnection) :
    Sys × List Act × Option String :=
  match createGmailAPIService env s connection.id with
  | (s1, acts0, some e) => (s1, acts0, some e)
  | (s1, acts0, none) =>
    match env.usersStop with
    | .error e =>
      (s1, acts0 ++ [.watchStop connection.id],
       some ("Failed to stop push notifications: " ++ e))
    | .ok _ =>
      let s2 := updateConnection s1 connection.id (fun c =>
        { c with gmailWatchExpiration := none
                 updatedAt := env.now })
      (s2, acts0 ++ [.watchStop connection.id, .clearWatch connection.id],
       none)

/-- One iteration of the `refreshGmailAPIWatches` loop: if the watch
expiration is set and less than 24 hours away (including the past),
re-register the watch; the per-connection `catch` swallows failures so
the scan continues. -/
def refreshStep (env : Env) (acc : Sys × List Act)
    (connection : GmailConnection) : Sys × List Act :=
  match connection.gmailWatchExpiration with
  | some exp =>
    if exp - env.now < 24 * 60 * 60 * 1000 then
      let r := startGmailAPIWatch env acc.1 connection
      (r.1, acc.2 ++ [.refreshAttempt connection.id] ++ r.2.1)
    else acc
  | none => acc

/-- `refreshGmailAPIWatches`: the scan itself over the selected active API
connections. -/
def refreshGmailAPIWatches (env : Env) (s : Sys) : Sys × List Act :=
  let connections := s.db.connections.filter (fun c =>
    c.connectionType == "api" && c.isActive)
  connections.foldl (refreshStep env) (s, [])

/-! ## Trace predicates -/

/-- Is this action an insertion into the email log for this connection and
message id? -/
def isInsertLog (cid mid : String) : Act → Bool
  | .insertEmailLog c m => c == cid && m == mid
  | _ => false

/-- Is this action a `users.messages.get` for this message id? -/
def isGetMessage (mid : String) : Act → Bool
  | .getMessageCall m => m == mid
  | _ => false

/-- Is this action a webhook POST to this webhook id? -/
def isPostTo (wid : String) : Act → Bool
  | .webhookPost w _ _ _ _ _ => w == wid
  | _ => false

/-- Is this action a webhook POST whose payload carries this message id? -/
def isPostData (mid : String) : Act → Bool
  | .webhookPost _ _ _ d _ _ => d == mid
  | _ => false

/-- Is this action a cursor overwrite? -/
def isCursorWrite : Act → Bool
  | .updateCursor _ _ => true
  | _ => false

/-- The connection ids for which the refresh scan attempted a renewal. -/
def refreshAttemptIds (acts : List Act) : List String :=
  acts.filterMap (fun a =>
    match a with
    | .refreshAttempt i => some i
    | _ => none)

/-! ## Concrete fixtures for counterexamples and witnesses -/

/-- A quiet environment; individual scenarios override the fields they
exercise. -/
def env0 : Env :=
  { historyList := fun _ => .error "none"
    usersMessagesGet := fun _ => .error "none"
    fetch := fun _ => .ok 200
    usersWatch := .error "none"
    usersStop := .ok ()
    oauthRefresh := .error "none"
    decode := fun s => s
    stringifyPayload := fun _ => ""
    uuid := fun n => Nat.repr n
    now := 1000000
    nowIso := "2026-01-01T00:00:00.000Z" }

/-- A healthy API connection with stored cursor "90" and fresh tokens. -/
def conn0 : GmailConnection :=
  { id := "c1", userId := "u1", email := "a@x.com", connectionType := "api"
    gmailAccessToken := some "at", gmailRefreshToken := some "rt"
    gmailTokenExpiry := none, gmailHistoryId := some "90"
    gmailPubsubTopic := none, gmailWatchExpiration := none
    isActive := true, lastSyncedAt := none, createdAt := 0, updatedAt := 0 }

/-- A plain inbound message as the provider returns it. -/
def mkMsg (i : String) : GmailMessage :=
  { id := i, threadId := "t1", labelIds := [], snippet := "snip"
    payload := .mk "text/plain" "" [("From", "s@y.com"), ("To", "a@x.com"),
      ("Subject", "hi")] none none 0 none }

/-- A one-item history delta containing the given message references. -/
def mkDelta (ids : List String) (newCursor : String) : HistoryResponse :=
  { history := [{ messagesAdded := some (ids.map (fun i => ⟨⟨i⟩⟩)) }]
    historyId := newCursor }

/-- An email-log row as a previous pass would have written it. -/
def mkLoggedRow (cid mid : String) : EmailLogRow :=
  { id := "log-" ++ mid, gmailConnectionId := cid, messageId := mid
    threadId := "t1", from_ := "s@y.com", to_ := ["a@x.com"]
    subject := "hi", snippet := "snip", direction := "inbound"
    status := "received", rawPayload := mkMsg mid, createdAt := 0 }

/-- An active subscription of connection `c1` to `email.received`. -/
def wh0 : WebhookRow :=
  { id := "w1", userId := "u1", gmailConnectionId := "c1"
    url := "https://sub.example/hook", secret := some "sec"
    isActive := true, events := ["email.received"], createdAt := 0
    updatedAt := 0 }

/-! ## Claim C9 -/

/-- Claim C9: `verifyWebhookSignature` is not total on its signature
argument — whenever the candidate signature's byte length differs from
the 64 hex characters of the recomputed HMAC (for example the empty
string, see the witness), `crypto.timingSafeEqual` throws instead of the
function returning `false`. -/
theorem verifyWebhookSignature_raises_on_wrong_length
    (payload sig secret : String)
    (h : (utf8Bytes sig).length ≠ 64) :
    verifyWebhookSignature payload sig secret =
      .error "Input buffers must have the same byte length" := by
  simp [verifyWebhookSignature, timingSafeEqual,
    createWebhookSignature_utf8_length, h]

/-- Witness for C9 at the empty signature: its byte length (0) differs
from 64, and verification raises the length error. -/
theorem verifyWebhookSignature_raises_on_wrong_length_witness :
    (utf8Bytes "").length ≠ 64 ∧
    verifyWebhookSignature "payload" "" "secret" =
      .error "Input buffers must have the same byte length" :=
  ⟨by decide,
   verifyWebhookSignature_raises_on_wrong_length "payload" "" "secret"
     (by decide)⟩

/-! ## Claim C7: unknown-mailbox notifications -/

/-- Counterexample to C7 as stated: with no stored connection for the
notification's address, the push handler returns HTTP 404 with an error
body — not a success response — so a push sender that retries on non-2xx
would redeliver. -/
theorem handler_unknown_mailbox_returns_404 :
    (handleGmailNotification env0 ⟨⟨[], [], [], []⟩, 0⟩ "b@x.com" "100").status
        = 404 ∧
    (handleGmailNotification env0 ⟨⟨[], [], [], []⟩, 0⟩ "b@x.com" "100").success
        = false := by
  constructor <;> rfl

/-- Amended C7: the push route handler answers an unknown mailbox with a
404 error (no success, no processing, state unchanged); the pub/sub
poller, by contrast, acknowledges (discards) such a notification and
continues; and neither path consults the active flag — a notification for
an inactive connection is processed like any other (it completes the sync
pass whenever the connection resolves and the delta fetch succeeds). -/
theorem notification_discard_behaviour
    (env : Env) (s : Sys) (addr hid : String)
    (hnone : s.db.connections.find? (fun c => c.email == addr) = none)
    (env' : Env) (s' : Sys) (addr' hid' : String) (conn : GmailConnection)
    (hfound : s'.db.connections.find? (fun c => c.email == addr') = some conn)
    (hinactive : conn.isActive = false)
    (s1 : Sys) (acts0 : List Act)
    (hsvc : createGmailAPIService env' s' conn.id = (s1, acts0, none))
    (hist : HistoryResponse)
    (hhist : env'.historyList (jsOr conn.gmailHistoryId hid') = .ok hist) :
    handleGmailNotification env s addr hid =
      ⟨s, [], 404, false, some "Gmail connection not found"⟩ ∧
    pollerHandleNotification env s addr hid = (s, [.ackMessage], true) ∧
    (handleGmailNotification env' s' addr' hid').status = 200 ∧
    (handleGmailNotification env' s' addr' hid').success = true := by
  refine ⟨?_, ?_, ?_, ?_⟩
  · unfold handleGmailNotification
    rw [hnone]
  · unfold pollerHandleNotification
    rw [hnone]
  · unfold handleGmailNotification
    rw [hfound]
    dsimp only
    rw [hsvc]
    dsimp only
    rw [hhist]
  · unfold handleGmailNotification
    rw [hfound]
    dsimp only
    rw [hsvc]
    dsimp only
    rw [hhist]

/-! ## Claim C6: no invalid-cursor fallback exists -/

/-- Counterexample to C6: with a stored cursor ("90") that the provider
rejects as too old, while the delta at the notification's hint ("100")
would be available, the handler performs exactly one history fetch — at
the stored cursor — and fails the pass with a 500; it never falls back to
bootstrapping from the hint, and no `InvalidCursorError` kind exists in
the code (`getHistory` wraps every failure in one generic `Error`). -/
theorem no_invalid_cursor_fallback_counterexample :
    (handleGmailNotification
        { env0 with historyList := fun c =>
            if c == "100" then .ok (mkDelta ["m1"] "200")
            else .error "Requested entity was not found." }
        ⟨⟨[conn0], [], [], []⟩, 0⟩ "a@x.com" "100")
      = ⟨⟨⟨[conn0], [], [], []⟩, 0⟩, [.getHistoryCall "90"], 500, false,
         some "Failed to get history: Requested entity was not found."⟩ := by
  rfl

/-- Amended C6: a delta-fetch failure of any kind — a stale cursor
included — is wrapped in a generic error by `getHistory` and caught by the
handler's catch-all, which fails the pass with a 500; no fallback fetch
from the notification's cursor hint happens (the hint serves as the start
cursor only when the connection stores no cursor), and the state reached
before the failure is kept unchanged by it. -/
theorem delta_fetch_failure_fails_pass
    (env : Env) (s : Sys) (addr hid : String) (conn : GmailConnection)
    (e : String) (s1 : Sys) (acts0 : List Act)
    (hfound : s.db.connections.find? (fun c => c.email == addr) = some conn)
    (hsvc : createGmailAPIService env s conn.id = (s1, acts0, none))
    (hfail : env.historyList (jsOr conn.gmailHistoryId hid) = .error e) :
    handleGmailNotification env s addr hid =
      ⟨s1, acts0 ++ [.getHistoryCall (jsOr conn.gmailHistoryId hid)],
       500, false, some ("Failed to get history: " ++ e)⟩ := by
  unfold handleGmailNotification
  rw [hfound]
  dsimp only
  rw [hsvc]
  dsimp only
  rw [hfail]

/-! ## Claim C1: at-most-once in the email log is not constraint-enforced -/

/-- Counterexample to C1: the `email_log` table carries no uniqueness
constraint on `message_id` (neither alone nor together with the
connection id) — and behaviourally, redelivering the same notification
through the pub/sub poller inserts the same provider message id into the
email log twice, because that path has no duplicate check at all. -/
theorem email_log_no_unique_constraint_counterexample :
    emailLogTable.hasUniqueOn ["message_id"] = false ∧
    emailLogTable.hasUniqueOn ["gmail_connection_id", "message_id"] = false ∧
    (let env := { env0 with
        historyList := fun _ => .ok (mkDelta ["m1"] "200")
        usersMessagesGet := fun i => .ok (mkMsg i) };
     let s0 : Sys := ⟨⟨[conn0], [], [], []⟩, 0⟩;
     let r1 := pollerHandleNotification env s0 "a@x.com" "100";
     let r2 := pollerHandleNotification env r1.1 "a@x.com" "100";
     r2.1.db.emailLogs.map (fun r => r.messageId) = ["m1", "m1"]) := by
  refine ⟨by decide, by decide, by decide⟩

/-- Amended C1: at-most-once per provider message id per mailbox in the
email log rests on application-level check-then-insert alone — present in
the route handler's `processNewMessage`, absent from the poller's.  The
only database uniqueness constraint on a message id is
`parsed_emails_message_id_unique` on the `parsed_emails` table, and it is
global per message id, not per mailbox. -/
theorem email_log_dedup_is_application_level
    (env : Env) (s : Sys) (cid : String) (m : MessageRef) (msg : GmailMessage)
    (hget : env.usersMessagesGet m.id = .ok msg)
    (hlogged : (s.db.emailLogs.find? (fun r =>
      r.gmailConnectionId == cid && r.messageId == msg.id)).isSome) :
    parsedEmailsTable.hasUniqueOn ["message_id"] = true ∧
    parsedEmailsTable.hasUniqueOn ["gmail_connection_id", "message_id"]
        = false ∧
    emailLogTable.hasUniqueOn ["message_id"] = false ∧
    processNewMessageRoute env s cid m = (s, [.getMessageCall m.id]) := by
  refine ⟨by decide, by decide, by decide, ?_⟩
  rcases Option.isSome_iff_exists.mp hlogged with ⟨r, hr⟩
  unfold processNewMessageRoute
  rw [hget]
  simp only [parseMessage]
  rw [hr]

/-! ## Claim C8: the watch-refresh selection -/

/-- The selection predicate the scan's `if` implements: expiration set
and less than 24 hours after now (a past expiration also qualifies). -/
def watchExpiringSoon (env : Env) (c : GmailConnection) : Bool :=
  match c.gmailWatchExpiration with
  | some exp => decide (exp - env.now < 24 * 60 * 60 * 1000)
  | none => false

theorem refreshAttemptIds_append (a b : List Act) :
    refreshAttemptIds (a ++ b) = refreshAttemptIds a ++ refreshAttemptIds b :=
  List.filterMap_append a b _

theorem refreshAttemptIds_createService (env : Env) (s : Sys) (cid : String) :
    refreshAttemptIds (createGmailAPIService env s cid).2.1 = [] := by
  unfold createGmailAPIService
  repeat' split
  all_goals rfl

theorem refreshAttemptIds_startWatch (env : Env) (s : Sys)
    (c : GmailConnection) :
    refreshAttemptIds (startGmailAPIWatch env s c).2.1 = [] := by
  have h := refreshAttemptIds_createService env s c.id
  unfold startGmailAPIWatch
  split
  · next s1 acts0 e heq =>
    rw [heq] at h
    exact h
  · next s1 acts0 heq =>
    rw [heq] at h
    split
    · exact h
    · rw [refreshAttemptIds_append, h]
      rfl

theorem refreshStep_ids (env : Env) (acc : Sys × List Act)
    (c : GmailConnection) :
    refreshAttemptIds (refreshStep env acc c).2 =
      refreshAttemptIds acc.2 ++
        (if watchExpiringSoon env c then [c.id] else []) := by
  unfold refreshStep watchExpiringSoon
  rcases hc : c.gmailWatchExpiration with _ | exp
  · simp
  · dsimp only
    by_cases hlt : exp - env.now < 24 * 60 * 60 * 1000
    · rw [if_pos hlt, refreshAttemptIds_append, refreshAttemptIds_append,
        refreshAttemptIds_startWatch]
      simp only [refreshAttemptIds, List.filterMap_cons, List.filterMap_nil,
        List.append_nil]
      rw [if_pos (decide_eq_true hlt)]
    · rw [if_neg hlt]
      simp only [decide_eq_true_eq]
      rw [if_neg hlt]
      simp

theorem refresh_fold_ids (env : Env) (l : List GmailConnection)
    (acc : Sys × List Act) :
    refreshAttemptIds ((l.foldl (refreshStep env) acc).2) =
      refreshAttemptIds acc.2 ++
        (l.filter (watchExpiringSoon env)).map (fun c => c.id) := by
  induction l generalizing acc with
  | nil => simp
  | cons c l ih =>
    rw [List.foldl_cons, ih, List.filter_cons]
    by_cases hc : watchExpiringSoon env c
    · simp [hc, refreshStep_ids]
    · simp [hc, refreshStep_ids]

/-- An active connection whose watch expires 23 hours from now, but whose
connection type is not "api". -/
def connImap : GmailConnection :=
  { conn0 with id := "ci", connectionType := "smtp"
               gmailWatchExpiration := some 83800000 }

/-- An active API connection whose watch expired 100 hours ago. -/
def connPast : GmailConnection :=
  { conn0 with id := "cp", gmailWatchExpiration := some (-359000000) }

/-- An environment whose watch registration succeeds. -/
def envWatchOk : Env :=
  { env0 with usersWatch := .ok ⟨some "300", some 2000000⟩ }

/-- Counterexample to C8 as stated: an active connection whose watch
expires 23 hours from now but whose `connectionType` is not "api" (here
"smtp") is skipped by the scan entirely — the claim's "exactly the active
connections whose expiry lies within 24 hours of now" would have it
renewed — while an active API connection whose watch expired 100 hours ago
(not within 24 hours of now) IS picked up and re-registered. -/
theorem watch_refresh_selection_counterexample :
    (refreshGmailAPIWatches env0 ⟨⟨[connImap], [], [], []⟩, 0⟩).2 = [] ∧
    refreshAttemptIds
      (refreshGmailAPIWatches envWatchOk
        ⟨⟨[connPast], [], [], []⟩, 0⟩).2 = ["cp"] := by
  exact ⟨by decide, by decide⟩

/-- Amended C8: the scan attempts renewal exactly for the connections that
are active, of connection type "api", and whose stored watch expiration is
set and less than 24 hours after now (one-sided: already-expired watches
qualify too); a connection with no expiration set is never attempted, and
the attempt list does not depend on any renewal's outcome, so one failing
renewal never stops the scan from reaching the next connection. -/
theorem watch_refresh_selects_expiring_api_connections (env : Env) (s : Sys) :
    refreshAttemptIds (refreshGmailAPIWatches env s).2 =
      (((s.db.connections.filter (fun c =>
          c.connectionType == "api" && c.isActive)).filter
        (watchExpiringSoon env)).map (fun c => c.id)) := by
  unfold refreshGmailAPIWatches
  rw [refresh_fold_ids]
  rfl

/-! ## Claim C10: what stopping a watch mutates -/

theorem map_rowUpdate_eq {β : Type} (l : List GmailConnection) (cid : String)
    (f : GmailConnection → GmailConnection) (proj : GmailConnection → β)
    (hf : ∀ c, proj (f c) = proj c) :
    (l.map (fun c => if c.id == cid then f c else c)).map proj =
      l.map proj := by
  induction l with
  | nil => rfl
  | cons c l ih =>
    simp only [List.map_cons, ih]
    by_cases hc : c.id == cid
    · rw [if_pos hc, hf]
    · rw [if_neg hc]

/-- Frame of the transparent token refresh: `createGmailAPIService` can
change only the access token, the token expiry, and `updatedAt` of the
matching connection rows; identity, email, type, cursor, active flag,
refresh token, watch expiration, and every other table are untouched. -/
theorem createService_frame (env : Env) (s : Sys) (cid : String) :
    (createGmailAPIService env s cid).1.db.connections.map (fun c =>
        (c.id, c.email, c.connectionType, c.gmailHistoryId, c.isActive,
         c.gmailRefreshToken, c.gmailWatchExpiration)) =
      s.db.connections.map (fun c =>
        (c.id, c.email, c.connectionType, c.gmailHistoryId, c.isActive,
         c.gmailRefreshToken, c.gmailWatchExpiration)) ∧
    (createGmailAPIService env s cid).1.db.emailLogs = s.db.emailLogs ∧
    (createGmailAPIService env s cid).1.db.parsedEmails
        = s.db.parsedEmails ∧
    (createGmailAPIService env s cid).1.db.webhooks = s.db.webhooks ∧
    (createGmailAPIService env s cid).1.uuidSeq = s.uuidSeq := by
  unfold createGmailAPIService
  repeat' split
  all_goals try exact ⟨rfl, rfl, rfl, rfl, rfl⟩
  all_goals refine ⟨?_, rfl, rfl, rfl, rfl⟩
  all_goals simp only [updateConnection]
  all_goals refine map_rowUpdate_eq _ _ _ _ ?_
  all_goals intro c
  all_goals rfl

/-- If the stored token is not expired, `createGmailAPIService` succeeds
without touching any state. -/
theorem createService_fresh_token_identity (env : Env) (s : Sys)
    (cid : String) (c0 : GmailConnection)
    (hfind : s.db.connections.find? (fun c => c.id == cid) = some c0)
    (htype : c0.connectionType = "api")
    (hat : jsTruthyStrOpt c0.gmailAccessToken = true)
    (hrt : jsTruthyStrOpt c0.gmailRefreshToken = true)
    (hfresh : ∀ e, c0.gmailTokenExpiry = some e → ¬e < env.now) :
    createGmailAPIService env s cid = (s, [], none) := by
  unfold createGmailAPIService
  rw [hfind]
  dsimp only
  rw [htype]
  simp only [hat, hrt]
  rcases hexp : c0.gmailTokenExpiry with _ | e
  · simp
  · simp [hfresh e hexp]

/-- A connection whose access token has already expired. -/
def connExpired : GmailConnection :=
  { conn0 with gmailTokenExpiry := some 500000 }

/-- An environment whose OAuth refresh succeeds with a new token. -/
def envRefreshOk : Env :=
  { env0 with oauthRefresh := .ok ⟨some "tok2", some 5000000⟩ }

/-- Counterexample to C10 as stated: stopping the watch of a connection
whose access token is expired ALSO rewrites the credential fields, because
`stopGmailAPIWatch` first runs `createGmailAPIService`, whose transparent
refresh persists a new access token before `users.stop` is called. -/
theorem stop_watch_mutates_credentials_counterexample :
    connExpired.gmailAccessToken = some "at" ∧
    (stopGmailAPIWatch envRefreshOk ⟨⟨[connExpired], [], [], []⟩, 0⟩
        connExpired).1.db.connections.map (fun c => c.gmailAccessToken)
      = [some "tok2"] := by
  exact ⟨by decide, by decide⟩

/-- Amended C10: a successful watch stop nulls exactly the watch
expiration and touches `updatedAt` on the matching rows; the sync cursor
(`gmailHistoryId`), the active flag, the refresh token, identity fields
and every other table are left unchanged (so a later re-watch resumes from
the persisted cursor) — while the credential fields (access token, token
expiry) are rewritten beforehand exactly when the stored token was already
expired, by the transparent refresh inside `createGmailAPIService`. -/
theorem stop_watch_frame (env : Env) (s : Sys)
    (connection : GmailConnection) (s1 : Sys) (acts0 : List Act)
    (hsvc : createGmailAPIService env s connection.id = (s1, acts0, none))
    (hstop : env.usersStop = .ok ()) :
    stopGmailAPIWatch env s connection =
      (updateConnection s1 connection.id (fun c =>
        { c with gmailWatchExpiration := none, updatedAt := env.now }),
       acts0 ++ [.watchStop connection.id, .clearWatch connection.id],
       none) ∧
    (stopGmailAPIWatch env s connection).1.db.connections.map
        (fun c => c.gmailHistoryId)
      = s.db.connections.map (fun c => c.gmailHistoryId) ∧
    (stopGmailAPIWatch env s connection).1.db.connections.map
        (fun c => c.isActive)
      = s.db.connections.map (fun c => c.isActive) ∧
    (stopGmailAPIWatch env s connection).1.db.connections.map
        (fun c => c.gmailRefreshToken)
      = s.db.connections.map (fun c => c.gmailRefreshToken) ∧
    (stopGmailAPIWatch env s connection).1.db.emailLogs
      = s.db.emailLogs := by
  have hframe := createService_frame env s connection.id
  rw [hsvc] at hframe
  have heq : stopGmailAPIWatch env s connection =
      (updateConnection s1 connection.id (fun c =>
        { c with gmailWatchExpiration := none, updatedAt := env.now }),
       acts0 ++ [.watchStop connection.id, .clearWatch connection.id],
       none) := by
    unfold stopGmailAPIWatch
    rw [hsvc]
    dsimp only
    rw [hstop]
  refine ⟨heq, ?_, ?_, ?_, ?_⟩
  all_goals rw [heq]
  · have h1 : s1.db.connections.map (fun c => c.gmailHistoryId)
        = s.db.connections.map (fun c => c.gmailHistoryId) := by
      have := congrArg (List.map (fun x :
        String × String × String × Option String × Bool ×
          Option String × Option Int => x.2.2.2.1)) hframe.1
      simpa [List.map_map, Function.comp] using this
    simp only [updateConnection]
    refine (map_rowUpdate_eq _ _ _ _ ?_).trans h1
    intro c
    rfl
  · have h1 : s1.db.connections.map (fun c => c.isActive)
        = s.db.connections.map (fun c => c.isActive) := by
      have := congrArg (List.map (fun x :
        String × String × String × Option String × Bool ×
          Option String × Option Int => x.2.2.2.2.1)) hframe.1
      simpa [List.map_map, Function.comp] using this
    simp only [updateConnection]
    refine (map_rowUpdate_eq _ _ _ _ ?_).trans h1
    intro c
    rfl
  · have h1 : s1.db.connections.map (fun c => c.gmailRefreshToken)
        = s.db.connections.map (fun c => c.gmailRefreshToken) := by
      have := congrArg (List.map (fun x :
        String × String × String × Option String × Bool ×
          Option String × Option Int => x.2.2.2.2.2.1)) hframe.1
      simpa [List.map_map, Function.comp] using this
    simp only [updateConnection]
    refine (map_rowUpdate_eq _ _ _ _ ?_).trans h1
    intro c
    rfl
  · simp only [updateConnection]
    exact hframe.2.1

/-! ## The history fold, flattened -/

/-- The added message references of a delta, in provider order. -/
def addedRefs (items : List HistoryItem) : List MessageRef :=
  items.flatMap (fun it =>
    match it.messagesAdded with
    | some l => l.map (fun am => am.message)
    | none => [])

/-- Fold one `processNewMessage` implementation over a reference list,
threading state and accumulating actions. -/
def procFold (proc : Env → Sys → String → MessageRef → Sys × List Act)
    (env : Env) (cid : String) (acc : Sys × List Act)
    (refs : List MessageRef) : Sys × List Act :=
  refs.foldl
    (fun acc2 r =>
      let t := proc env acc2.1 cid r
      (t.1, acc2.2 ++ t.2))
    acc

theorem procFold_append (proc) (env : Env) (cid : String)
    (acc : Sys × List Act) (a b : List MessageRef) :
    procFold proc env cid acc (a ++ b) =
      procFold proc env cid (procFold proc env cid acc a) b :=
  List.foldl_append _ _ _ _

/-- The double loop of `processHistory` equals the flat fold over the
delta's added references. -/
theorem processHistory_eq (proc) (env : Env) (s : Sys) (cid : String)
    (items : List HistoryItem) :
    processHistory proc env s cid items =
      procFold proc env cid (s, []) (addedRefs items) := by
  suffices h : ∀ (its : List HistoryItem) (acc : Sys × List Act),
      its.foldl
        (fun acc item =>
          match item.messagesAdded with
          | none => acc
          | some added =>
            added.foldl
              (fun acc2 addedMsg =>
                let r := proc env acc2.1 cid addedMsg.message
                (r.1, acc2.2 ++ r.2))
              acc)
        acc = procFold proc env cid acc (addedRefs its) by
    exact h items (s, [])
  intro its
  induction its with
  | nil => intro acc; rfl
  | cons it its ih =>
    intro acc
    rw [List.foldl_cons]
    rcases hma : it.messagesAdded with _ | added
    · simp only [addedRefs, List.flatMap_cons, hma]
      rw [ih]
      rfl
    · simp only [addedRefs, List.flatMap_cons, hma]
      rw [ih]
      unfold addedRefs
      rw [procFold_append]
      congr 1
      unfold procFold
      rw [List.foldl_map]

/-- A per-reference action bound lifts through the fold. -/
theorem procFold_countP (p : Act → Bool)
    (proc : Env → Sys → String → MessageRef → Sys × List Act)
    (hproc : ∀ env s cid m, ((proc env s cid m).2.countP p) = 0)
    (env : Env) (cid : String) :
    ∀ (refs : List MessageRef) (acc : Sys × List Act),
      ((procFold proc env cid acc refs).2.countP p) = acc.2.countP p := by
  intro refs
  induction refs with
  | nil => intro acc; rfl
  | cons r refs ih =>
    intro acc
    unfold procFold
    rw [List.foldl_cons]
    have := ih ((proc env acc.1 cid r).1, acc.2 ++ (proc env acc.1 cid r).2)
    unfold procFold at this
    rw [this]
    rw [List.countP_append, hproc]
    exact Nat.add_zero _

/-! ## Action inventories of the pipeline pieces -/

theorem createService_acts (env : Env) (s : Sys) (cid : String) :
    (createGmailAPIService env s cid).2.1 = [] ∨
    (createGmailAPIService env s cid).2.1 = [.tokenRefreshPersist cid] := by
  unfold createGmailAPIService
  repeat' split
  all_goals first
    | exact Or.inl rfl
    | exact Or.inr rfl

/-- Every action emitted by `sendWebhook wid` is a POST tagged with `wid`,
the payload's event type, and the payload's `data.id`. -/
theorem sendWebhook_posts_shape (env : Env) (db : Db) (wid : String)
    (payload : WebhookPayload) :
    ∀ a ∈ sendWebhook env db wid payload,
      ∃ url sig st, a = .webhookPost wid url payload.type payload.data.id
        sig st := by
  intro a ha
  unfold sendWebhook at ha
  rcases hfind : db.webhooks.find? (fun w => w.id == wid) with _ | wc
  · rw [hfind] at ha
    cases ha
  · rw [hfind] at ha
    have hwc : wc.id = wid := by
      have := List.find?_some hfind
      exact eq_of_beq this
    dsimp only at ha
    cases h1 : wc.isActive
    · rw [if_pos (by rw [h1]; rfl)] at ha
      cases ha
    · rw [if_neg (by rw [h1]; decide)] at ha
      cases h2 : wc.events.contains payload.type
      · rw [if_pos (by rw [h2]; rfl)] at ha
        cases ha
      · rw [if_neg (by rw [h2]; decide)] at ha
        unfold sendWebhookAttempt at ha
        rcases hf : env.fetch wc.url with st | m
        · rw [hf] at ha
          dsimp only at ha
          rw [List.mem_singleton] at ha
          refine ⟨wc.url,
            createWebhookSignature (env.stringifyPayload payload)
              (jsOr wc.secret ""), st, ?_⟩
          rw [ha, hwc]
        · rw [hf] at ha
          cases ha

/-- When the webhook row is found, active, subscribed, and its endpoint
answers with a status, `sendWebhook` issues exactly that one POST. -/
theorem sendWebhook_self (env : Env) (db : Db) (payload : WebhookPayload)
    (w : WebhookRow) (st : Nat)
    (hfind : db.webhooks.find? (fun x => x.id == w.id) = some w)
    (hact : w.isActive = true)
    (hsub : w.events.contains payload.type = true)
    (hok : env.fetch w.url = .ok st) :
    sendWebhook env db w.id payload =
      [.webhookPost w.id w.url payload.type payload.data.id
        (createWebhookSignature (env.stringifyPayload payload)
          (jsOr w.secret "")) st] := by
  unfold sendWebhook
  rw [hfind]
  dsimp only
  rw [if_neg (by rw [hact]; decide), if_neg (by rw [hsub]; decide)]
  unfold sendWebhookAttempt
  rw [hok]

/-- With pairwise-distinct webhook ids (the primary key), looking a member
row up by its own id finds exactly that row. -/
theorem find_by_id_of_nodup (l : List WebhookRow) (w : WebhookRow)
    (hnd : (l.map (fun x => x.id)).Nodup) (hw : w ∈ l) :
    l.find? (fun x => x.id == w.id) = some w := by
  induction l with
  | nil => cases hw
  | cons x l ih =>
    rcases List.mem_cons.mp hw with rfl | hw'
    · rw [List.find?_cons_of_pos _ (by simp)]
    · have hx : x.id ≠ w.id := by
        intro hcontra
        have : w.id ∈ l.map (fun x => x.id) :=
          List.mem_map.mpr ⟨w, hw', rfl⟩
        rw [List.map_cons, List.nodup_cons] at hnd
        exact hnd.1 (hcontra ▸ this)
      rw [List.find?_cons_of_neg _ (by simp [hx])]
      exact ih (List.nodup_cons.mp (by simpa using hnd)).2 hw'

/-- Summing a predicate's count over the per-webhook deliveries: only the
webhooks whose id is the distinguished one contribute, once each. -/
theorem fanout_countP_aux (env : Env) (db : Db) (payload : WebhookPayload)
    (p : Act → Bool) (wid : String)
    (h1 : (sendWebhook env db wid payload).countP p = 1)
    (h0 : ∀ wid2, wid2 ≠ wid →
      (sendWebhook env db wid2 payload).countP p = 0) :
    ∀ ws : List WebhookRow,
      ((ws.map (fun wh => sendWebhook env db wh.id payload)).flatten).countP p
        = ws.countP (fun x => x.id == wid) := by
  intro ws
  induction ws with
  | nil => rfl
  | cons x ws ih =>
    rw [List.map_cons, List.flatten_cons, List.countP_append, ih,
      List.countP_cons]
    by_cases hx : x.id = wid
    · rw [hx, h1]
      simp [Nat.add_comm]
    · rw [h0 x.id hx]
      simp [hx]

/-- In a webhook table with distinct ids, a member row of the connection
occurs exactly once among the rows whose id matches it. -/
theorem countP_id_filter_eq_one (db : Db) (cid : String) (w : WebhookRow)
    (hnd : (db.webhooks.map (fun x => x.id)).Nodup)
    (hw : w ∈ db.webhooks) (hcid : w.gmailConnectionId = cid) :
    ((db.webhooks.filter (fun x => x.gmailConnectionId == cid)).countP
      (fun x => x.id == w.id)) = 1 := by
  have hmem : w ∈ db.webhooks.filter (fun x => x.gmailConnectionId == cid) :=
    List.mem_filter.mpr ⟨hw, by simp [hcid]⟩
  have hle : ((db.webhooks.filter (fun x => x.gmailConnectionId == cid)).countP
      (fun x => x.id == w.id)) ≤ db.webhooks.countP (fun x => x.id == w.id) :=
    List.Sublist.countP_le _ (List.filter_sublist _)
  have htot : db.webhooks.countP (fun x => x.id == w.id) = 1 := by
    have h2 : db.webhooks.countP (fun x => x.id == w.id)
        = (db.webhooks.map (fun x => x.id)).countP (fun i => i == w.id) := by
      rw [List.countP_map]
      rfl
    rw [h2]
    have hmem2 : w.id ∈ db.webhooks.map (fun x => x.id) :=
      List.mem_map.mpr ⟨w, hw, rfl⟩
    have := List.count_eq_one_of_mem hnd hmem2
    simpa [List.count] using this
  have hpos : 0 < ((db.webhooks.filter
      (fun x => x.gmailConnectionId == cid)).countP
      (fun x => x.id == w.id)) :=
    List.countP_pos.mpr ⟨w, hmem, by simp⟩
  omega

/-- Exactly-one-POST for a distinguished webhook across the whole fan-out,
for any action predicate that counts once on its own delivery and never on
another webhook's. -/
theorem fanout_countP_eq_one (env : Env) (db : Db) (cid : String)
    (payload : WebhookPayload) (p : Act → Bool) (w : WebhookRow)
    (hnd : (db.webhooks.map (fun x => x.id)).Nodup)
    (hw : w ∈ db.webhooks) (hcid : w.gmailConnectionId = cid)
    (h1 : (sendWebhook env db w.id payload).countP p = 1)
    (h0 : ∀ wid2, wid2 ≠ w.id →
      (sendWebhook env db wid2 payload).countP p = 0) :
    (sendWebhooksForConnection env db cid payload).countP p = 1 := by
  unfold sendWebhooksForConnection
  rw [fanout_countP_aux env db payload p w.id h1 h0]
  exact countP_id_filter_eq_one db cid w hnd hw hcid

theorem sendWebhook_countP_eq_zero (env : Env) (db : Db)
    (payload : WebhookPayload) (wid2 : String) (p : Act → Bool)
    (hp : ∀ url sig st, p (.webhookPost wid2 url payload.type
      payload.data.id sig st) = false) :
    (sendWebhook env db wid2 payload).countP p = 0 := by
  rw [List.countP_eq_zero]
  intro a ha
  obtain ⟨url, sig, st, rfl⟩ := sendWebhook_posts_shape env db wid2 payload a ha
  simp [hp]

theorem fanout_countP_zero (env : Env) (db : Db) (cid : String)
    (payload : WebhookPayload) (p : Act → Bool)
    (hp : ∀ wid url sig st, p (.webhookPost wid url payload.type
      payload.data.id sig st) = false) :
    (sendWebhooksForConnection env db cid payload).countP p = 0 := by
  rw [List.countP_eq_zero]
  intro a ha
  unfold sendWebhooksForConnection at ha
  rcases List.mem_flatten.mp ha with ⟨l, hl, hal⟩
  rcases List.mem_map.mp hl with ⟨wh, _, rfl⟩
  obtain ⟨url, sig, st, rfl⟩ :=
    sendWebhook_posts_shape env db wh.id payload a hal
  simp [hp]

theorem storeParsedEmail_acts (env : Env) (s : Sys) (cid : String)
    (raw : GmailMessage) (parsed : ParsedMessage) :
    (storeParsedEmail env s cid raw parsed).2
        = [.updateParsedEmail parsed.id] ∨
    (storeParsedEmail env s cid raw parsed).2
        = [.insertParsedEmail parsed.id] := by
  unfold storeParsedEmail
  dsimp only
  rcases hex : s.db.parsedEmails.find? (fun r => r.messageId == parsed.id)
    with _ | ex
  · exact Or.inr (by rw [hex])
  · exact Or.inl (by rw [hex])

/-- Every fan-out action is a webhook POST carrying the payload's event
type and message id. -/
theorem fanout_mem_shape (env : Env) (db : Db) (cid : String)
    (payload : WebhookPayload) (a : Act)
    (ha : a ∈ sendWebhooksForConnection env db cid payload) :
    ∃ wid url sig st,
      a = .webhookPost wid url payload.type payload.data.id sig st := by
  unfold sendWebhooksForConnection at ha
  rcases List.mem_flatten.mp ha with ⟨l, hl, hal⟩
  rcases List.mem_map.mp hl with ⟨wh, _, rfl⟩
  obtain ⟨url, sig, st, rfl⟩ :=
    sendWebhook_posts_shape env db wh.id payload a hal
  exact ⟨wh.id, url, sig, st, rfl⟩

/-- Every `storeParsedEmail` action is the one upsert marker. -/
theorem storeParsedEmail_mem_shape (env : Env) (s : Sys) (cid : String)
    (raw : GmailMessage) (parsed : ParsedMessage) (a : Act)
    (ha : a ∈ (storeParsedEmail env s cid raw parsed).2) :
    a = .updateParsedEmail parsed.id ∨ a = .insertParsedEmail parsed.id := by
  rcases storeParsedEmail_acts env s cid raw parsed with h | h
  all_goals rw [h] at ha
  all_goals rw [List.mem_singleton] at ha
  · exact Or.inl ha
  · exact Or.inr ha

theorem processNewMessageRoute_no_cursor (env : Env) (s : Sys)
    (cid : String) (m : MessageRef) :
    ((processNewMessageRoute env s cid m).2.countP isCursorWrite) = 0 := by
  rw [List.countP_eq_zero]
  intro a ha
  unfold processNewMessageRoute at ha
  split at ha
  · rw [List.mem_singleton] at ha
    subst ha
    simp [isCursorWrite]
  · dsimp only at ha
    split at ha
    · rw [List.mem_singleton] at ha
      subst ha
      simp [isCursorWrite]
    · dsimp only at ha
      rw [List.mem_append, List.mem_append] at ha
      rcases ha with (ha | ha) | ha
      · simp only [List.mem_cons, List.not_mem_nil, or_false] at ha
        rcases ha with rfl | rfl
        all_goals simp [isCursorWrite]
      · obtain ⟨wid, url, sig, st, rfl⟩ := fanout_mem_shape _ _ _ _ a ha
        simp [isCursorWrite]
      · rcases storeParsedEmail_mem_shape _ _ _ _ _ a ha with rfl | rfl
        all_goals simp [isCursorWrite]

/-! ## Claim C4 -/

/-- Claim C4: the fan-out never throws to its caller and subscriber
failures are isolated.  For any environment (hence for any pattern of
HTTP-error and network-error outcomes at the other endpoints), an active
subscription of the connection that is subscribed to the event's type and
whose own endpoint answers receives exactly one POST for the event; and
the sync pass itself completes with a 200 success response no matter what
the `fetch` outcomes are (the handler's result does not depend on them). -/
theorem fanout_isolation_and_pass_completion
    (env : Env) (db : Db) (cid : String) (payload : WebhookPayload)
    (w : WebhookRow) (st : Nat)
    (hnd : (db.webhooks.map (fun x => x.id)).Nodup)
    (hw : w ∈ db.webhooks) (hcid : w.gmailConnectionId = cid)
    (hact : w.isActive = true)
    (hsub : w.events.contains payload.type = true)
    (hok : env.fetch w.url = .ok st)
    (s : Sys) (addr hid : String) (conn : GmailConnection)
    (s1 : Sys) (acts0 : List Act) (hist : HistoryResponse)
    (hfound : s.db.connections.find? (fun c => c.email == addr) = some conn)
    (hsvc : createGmailAPIService env s conn.id = (s1, acts0, none))
    (hhist : env.historyList (jsOr conn.gmailHistoryId hid) = .ok hist) :
    (sendWebhooksForConnection env db cid payload).countP (isPostTo w.id)
        = 1 ∧
    (handleGmailNotification env s addr hid).status = 200 ∧
    (handleGmailNotification env s addr hid).success = true := by
  refine ⟨?_, ?_, ?_⟩
  · apply fanout_countP_eq_one env db cid payload _ w hnd hw hcid
    · rw [sendWebhook_self env db payload w st
        (find_by_id_of_nodup _ _ hnd hw) hact hsub hok]
      simp [isPostTo]
    · intro wid2 hne
      apply sendWebhook_countP_eq_zero
      intro url sig st'
      simp [isPostTo, hne]
  · unfold handleGmailNotification
    rw [hfound]
    dsimp only
    rw [hsvc]
    dsimp only
    rw [hhist]
  · unfold handleGmailNotification
    rw [hfound]
    dsimp only
    rw [hsvc]
    dsimp only
    rw [hhist]

/-! ## Claim C3 -/

/-- Claim C3: on a successfully processed notification, the stored cursor
of the connection is overwritten with exactly the provider-returned
`historyId`, and this cursor write is the single last action of the pass —
no cursor update precedes or interleaves with the processing of the
delta's added messages. -/
theorem cursor_overwritten_once_after_processing
    (env : Env) (s : Sys) (addr hid : String) (conn : GmailConnection)
    (s1 : Sys) (acts0 : List Act) (hist : HistoryResponse)
    (hfound : s.db.connections.find? (fun c => c.email == addr) = some conn)
    (hsvc : createGmailAPIService env s conn.id = (s1, acts0, none))
    (hhist : env.historyList (jsOr conn.gmailHistoryId hid) = .ok hist) :
    (handleGmailNotification env s addr hid).status = 200 ∧
    (∀ c ∈ (handleGmailNotification env s addr hid).sys.db.connections,
      c.id = conn.id → c.gmailHistoryId = some hist.historyId) ∧
    (∃ pre, (handleGmailNotification env s addr hid).actions =
        pre ++ [.updateCursor conn.id hist.historyId] ∧
      pre.countP isCursorWrite = 0) := by
  have heq : handleGmailNotification env s addr hid =
      ⟨updateConnection
          (processHistory processNewMessageRoute env s1 conn.id
            hist.history).1 conn.id (fun c =>
          { c with gmailHistoryId := some hist.historyId
                   lastSyncedAt := some env.now
                   updatedAt := env.now }),
       acts0 ++ [.getHistoryCall (jsOr conn.gmailHistoryId hid)] ++
         (processHistory processNewMessageRoute env s1 conn.id
           hist.history).2 ++
         [.updateCursor conn.id hist.historyId],
       200, true, none⟩ := by
    unfold handleGmailNotification
    rw [hfound]
    dsimp only
    rw [hsvc]
    dsimp only
    rw [hhist]
  refine ⟨by rw [heq], ?_, ?_⟩
  · intro c hc hcid
    rw [heq] at hc
    dsimp only [updateConnection] at hc
    rcases List.mem_map.mp hc with ⟨c0, _, rfl⟩
    by_cases h0 : c0.id == conn.id
    · rw [if_pos h0]
    · rw [if_neg h0] at hcid ⊢
      exact absurd (by simp [hcid]) h0
  · refine ⟨acts0 ++ [.getHistoryCall (jsOr conn.gmailHistoryId hid)] ++
      (processHistory processNewMessageRoute env s1 conn.id
        hist.history).2, ?_, ?_⟩
    · rw [heq]
    · rw [List.countP_append, List.countP_append]
      have h0 : acts0.countP isCursorWrite = 0 := by
        have := createService_acts env s conn.id
        rw [hsvc] at this
        rcases this with h | h
        all_goals dsimp only at h
        all_goals rw [h]
        all_goals rfl
      have h1 : ((processHistory processNewMessageRoute env s1 conn.id
          hist.history).2.countP isCursorWrite) = 0 := by
        rw [processHistory_eq]
        rw [procFold_countP isCursorWrite processNewMessageRoute
          processNewMessageRoute_no_cursor]
        rfl
      rw [h0, h1]
      rfl

/-! ## Claim C2 -/

/-- The duplicate path of the route handler's `processNewMessage`: the
message is fetched, found in the email log, and everything else is
skipped. -/
theorem processNewMessageRoute_dup (env : Env) (s : Sys) (cid : String)
    (m : MessageRef) (msg : GmailMessage)
    (hget : env.usersMessagesGet m.id = .ok msg)
    (hdup : (s.db.emailLogs.find? (fun r =>
      r.gmailConnectionId == cid && r.messageId == msg.id)).isSome) :
    processNewMessageRoute env s cid m = (s, [.getMessageCall m.id]) := by
  rcases Option.isSome_iff_exists.mp hdup with ⟨r, hr⟩
  unfold processNewMessageRoute
  rw [hget]
  simp only [parseMessage]
  rw [hr]

/-- State of the route handler's `processNewMessage` after the email-log
insert of a fresh message. -/
def routeNewState (env : Env) (s : Sys) (cid : String)
    (msg : GmailMessage) : Sys :=
  let parsed := parseMessage env.decode msg
  let u1 := freshUuid env s
  let row := mkEmailLogRow env u1.1 cid msg parsed
  { u1.2 with db := { u1.2.db with emailLogs := u1.2.db.emailLogs ++ [row] } }

/-- Actions of the fresh-message path of the route handler's
`processNewMessage`. -/
def routeNewActs (env : Env) (s : Sys) (cid : String) (m : MessageRef)
    (msg : GmailMessage) : List Act :=
  let parsed := parseMessage env.decode msg
  let s2 := routeNewState env s cid msg
  let u2 := freshUuid env s2
  let payload := mkReceivedPayload env u2.1 parsed
  let fanout := sendWebhooksForConnection env u2.2.db cid payload
  let sp := storeParsedEmail env u2.2 cid msg parsed
  [.getMessageCall m.id, .insertEmailLog cid parsed.id] ++ fanout ++ sp.2

/-- Final state of the fresh-message path. -/
def routeNewFinal (env : Env) (s : Sys) (cid : String)
    (msg : GmailMessage) : Sys :=
  let parsed := parseMessage env.decode msg
  let s2 := routeNewState env s cid msg
  let u2 := freshUuid env s2
  (storeParsedEmail env u2.2 cid msg parsed).1

/-- The new-message path of the route handler's `processNewMessage`,
written out. -/
theorem processNewMessageRoute_new (env : Env) (s : Sys) (cid : String)
    (m : MessageRef) (msg : GmailMessage)
    (hget : env.usersMessagesGet m.id = .ok msg)
    (hnew : s.db.emailLogs.find? (fun r =>
      r.gmailConnectionId == cid && r.messageId == msg.id) = none) :
    processNewMessageRoute env s cid m =
      (routeNewFinal env s cid msg, routeNewActs env s cid m msg) := by
  unfold processNewMessageRoute routeNewFinal routeNewActs routeNewState
  rw [hget]
  simp only [parseMessage]
  rw [hnew]

/-- `storeParsedEmail` writes only the `parsed_emails` table. -/
theorem storeParsedEmail_frame (env : Env) (s : Sys) (cid : String)
    (raw : GmailMessage) (parsed : ParsedMessage) :
    (storeParsedEmail env s cid raw parsed).1.db.emailLogs
        = s.db.emailLogs ∧
    (storeParsedEmail env s cid raw parsed).1.db.connections
        = s.db.connections ∧
    (storeParsedEmail env s cid raw parsed).1.db.webhooks
        = s.db.webhooks := by
  unfold storeParsedEmail
  dsimp only
  rcases hex : s.db.parsedEmails.find? (fun r => r.messageId == parsed.id)
    with _ | ex
  · exact ⟨by rw [hex]; rfl, by rw [hex]; rfl, by rw [hex]; rfl⟩
  · exact ⟨by rw [hex]; rfl, by rw [hex]; rfl, by rw [hex]; rfl⟩

/-- Counterexample to C2 as stated: re-delivering a notification whose
delta holds only the already-logged message `m1` still issues a
`users.messages.get` for `m1` — the Delivery-Log check runs AFTER the
fetch, not before it — although no new email-log row is inserted. -/
theorem reprocessing_still_fetches_counterexample :
    ((handleGmailNotification
        { env0 with historyList := fun _ => .ok (mkDelta ["m1"] "200")
                    usersMessagesGet := fun i => .ok (mkMsg i) }
        ⟨⟨[conn0], [mkLoggedRow "c1" "m1"], [], [wh0]⟩, 0⟩
        "a@x.com" "100").actions.countP (isGetMessage "m1")) = 1 ∧
    ((handleGmailNotification
        { env0 with historyList := fun _ => .ok (mkDelta ["m1"] "200")
                    usersMessagesGet := fun i => .ok (mkMsg i) }
        ⟨⟨[conn0], [mkLoggedRow "c1" "m1"], [], [wh0]⟩, 0⟩
        "a@x.com" "100").actions.countP (isInsertLog "c1" "m1")) = 0 := by
  exact ⟨by decide, by decide⟩

theorem routeNewState_logs (env : Env) (s : Sys) (cid : String)
    (msg : GmailMessage) :
    (routeNewState env s cid msg).db.emailLogs =
      s.db.emailLogs ++ [mkEmailLogRow env (freshUuid env s).1 cid msg
        (parseMessage env.decode msg)] := rfl

theorem routeNewState_webhooks (env : Env) (s : Sys) (cid : String)
    (msg : GmailMessage) :
    (routeNewState env s cid msg).db.webhooks = s.db.webhooks := rfl

theorem routeNewFinal_logs (env : Env) (s : Sys) (cid : String)
    (msg : GmailMessage) :
    (routeNewFinal env s cid msg).db.emailLogs =
      (routeNewState env s cid msg).db.emailLogs :=
  (storeParsedEmail_frame env (freshUuid env (routeNewState env s cid msg)).2
    cid msg (parseMessage env.decode msg)).1

/-- A predicate that rejects every action shape of the fresh-message path
counts zero over it. -/
theorem routeNewActs_countP_zero (env : Env) (s : Sys) (cid : String)
    (m : MessageRef) (msg : GmailMessage) (p : Act → Bool)
    (h1 : p (.getMessageCall m.id) = false)
    (h2 : p (.insertEmailLog cid msg.id) = false)
    (h3 : ∀ wid url sig st,
      p (.webhookPost wid url "email.received" msg.id sig st) = false)
    (h4 : ∀ mid, p (.updateParsedEmail mid) = false)
    (h5 : ∀ mid, p (.insertParsedEmail mid) = false) :
    (routeNewActs env s cid m msg).countP p = 0 := by
  rw [List.countP_eq_zero]
  intro a ha
  have ha2 : a ∈ ([Act.getMessageCall m.id,
      Act.insertEmailLog cid msg.id] ++
      sendWebhooksForConnection env (routeNewState env s cid msg).db cid
        (mkReceivedPayload env (freshUuid env (routeNewState env s cid msg)).1
          (parseMessage env.decode msg)) ++
      (storeParsedEmail env (freshUuid env (routeNewState env s cid msg)).2
        cid msg (parseMessage env.decode msg)).2) := ha
  rw [List.mem_append, List.mem_append] at ha2
  rcases ha2 with (hx | hx) | hx
  · rcases List.mem_cons.mp hx with rfl | hx2
    · simp [h1]
    · rcases List.mem_singleton.mp hx2 with rfl
      simp [h2]
  · obtain ⟨wid, url, sig, st, rfl⟩ := fanout_mem_shape _ _ _ _ _ hx
    simp only [mkReceivedPayload, parseMessage]
    simp [h3]
  · rcases storeParsedEmail_mem_shape _ _ _ _ _ _ hx with rfl | rfl
    · simp [h4]
    · simp [h5]

/-- Across the fresh-message path, the connection's distinguished
responsive active subscription receives exactly one POST carrying the
message's id. -/
theorem routeNewActs_post_count (env : Env) (s : Sys) (cid : String)
    (m : MessageRef) (msg : GmailMessage) (w : WebhookRow) (st : Nat)
    (hnd : (s.db.webhooks.map (fun x => x.id)).Nodup)
    (hw : w ∈ s.db.webhooks) (hcid : w.gmailConnectionId = cid)
    (hact : w.isActive = true)
    (hsub : w.events.contains "email.received" = true)
    (hok : env.fetch w.url = .ok st) :
    (routeNewActs env s cid m msg).countP
      (fun a => isPostTo w.id a && isPostData msg.id a) = 1 := by
  show ([Act.getMessageCall m.id, Act.insertEmailLog cid msg.id] ++
      sendWebhooksForConnection env (routeNewState env s cid msg).db cid
        (mkReceivedPayload env (freshUuid env (routeNewState env s cid msg)).1
          (parseMessage env.decode msg)) ++
      (storeParsedEmail env (freshUuid env (routeNewState env s cid msg)).2
        cid msg (parseMessage env.decode msg)).2).countP
      (fun a => isPostTo w.id a && isPostData msg.id a) = 1
  rw [List.countP_append, List.countP_append]
  have hweb2 : (routeNewState env s cid msg).db.webhooks = s.db.webhooks := rfl
  have hnd2 : (((routeNewState env s cid msg).db.webhooks).map
      (fun x => x.id)).Nodup := by rw [hweb2]; exact hnd
  have hw2 : w ∈ (routeNewState env s cid msg).db.webhooks := by
    rw [hweb2]; exact hw
  have hfan : (sendWebhooksForConnection env (routeNewState env s cid msg).db
      cid (mkReceivedPayload env
        (freshUuid env (routeNewState env s cid msg)).1
        (parseMessage env.decode msg))).countP
      (fun a => isPostTo w.id a && isPostData msg.id a) = 1 := by
    apply fanout_countP_eq_one env _ cid _ _ w hnd2 hw2 hcid
    · rw [sendWebhook_self env _ _ w st
        (find_by_id_of_nodup _ _ hnd2 hw2) hact hsub hok]
      simp [isPostTo, isPostData, mkReceivedPayload, parseMessage]
    · intro wid2 hne2
      apply sendWebhook_countP_eq_zero
      intro url sig st2
      simp [isPostTo, isPostData, hne2]
  have hpre : ([Act.getMessageCall m.id,
      Act.insertEmailLog cid msg.id].countP
      (fun a => isPostTo w.id a && isPostData msg.id a)) = 0 := by
    simp [isPostTo]
  have hsp : ((storeParsedEmail env
      (freshUuid env (routeNewState env s cid msg)).2 cid msg
      (parseMessage env.decode msg)).2.countP
      (fun a => isPostTo w.id a && isPostData msg.id a)) = 0 := by
    rcases storeParsedEmail_acts env
        (freshUuid env (routeNewState env s cid msg)).2 cid msg
        (parseMessage env.decode msg) with h | h
    · rw [h]; simp [isPostTo]
    · rw [h]; simp [isPostTo]
  rw [hpre, hfan, hsp]

/-- Amended C2: for a delta holding an already-logged reference `r1`
(message `msg1`) and a fresh reference `r2` (message `msg2`), the handler
succeeds, inserts no email-log row and delivers no webhook for `msg1` —
but `msg1` IS re-fetched from the provider, because the Delivery-Log
check of `processNewMessage` runs only AFTER the `users.messages.get`
fetch, not before it — while `msg2` is fetched, appended to the email
log, and delivered exactly once to the connection's responsive active
subscription. -/
theorem reprocess_skips_logged_but_refetches
    (env : Env) (s : Sys) (addr hid : String) (conn : GmailConnection)
    (s1 : Sys) (acts0 : List Act) (hist : HistoryResponse)
    (r1 r2 : MessageRef) (msg1 msg2 : GmailMessage)
    (w : WebhookRow) (st : Nat)
    (hfound : s.db.connections.find? (fun c => c.email == addr) = some conn)
    (hsvc : createGmailAPIService env s conn.id = (s1, acts0, none))
    (hhist : env.historyList (jsOr conn.gmailHistoryId hid) = .ok hist)
    (hrefs : addedRefs hist.history = [r1, r2])
    (hget1 : env.usersMessagesGet r1.id = .ok msg1)
    (hget2 : env.usersMessagesGet r2.id = .ok msg2)
    (hne : msg1.id ≠ msg2.id)
    (hdup : (s.db.emailLogs.find? (fun r =>
      r.gmailConnectionId == conn.id && r.messageId == msg1.id)).isSome)
    (hnew : s.db.emailLogs.find? (fun r =>
      r.gmailConnectionId == conn.id && r.messageId == msg2.id) = none)
    (hnd : (s.db.webhooks.map (fun x => x.id)).Nodup)
    (hw : w ∈ s.db.webhooks) (hwc : w.gmailConnectionId = conn.id)
    (hwa : w.isActive = true)
    (hws : w.events.contains "email.received" = true)
    (hok : env.fetch w.url = .ok st) :
    (handleGmailNotification env s addr hid).status = 200 ∧
    ((handleGmailNotification env s addr hid).actions.countP
      (isInsertLog conn.id msg1.id)) = 0 ∧
    ((handleGmailNotification env s addr hid).actions.countP
      (isPostData msg1.id)) = 0 ∧
    1 ≤ ((handleGmailNotification env s addr hid).actions.countP
      (isGetMessage r1.id)) ∧
    (handleGmailNotification env s addr hid).sys.db.emailLogs.map
        (fun r => r.messageId)
      = s.db.emailLogs.map (fun r => r.messageId) ++ [msg2.id] ∧
    ((handleGmailNotification env s addr hid).actions.countP
      (fun a => isPostTo w.id a && isPostData msg2.id a)) = 1 := by
  have hflogs : s1.db.emailLogs = s.db.emailLogs := by
    have h := (createService_frame env s conn.id).2.1
    rw [hsvc] at h
    exact h
  have hfweb : s1.db.webhooks = s.db.webhooks := by
    have h := (createService_frame env s conn.id).2.2.2.1
    rw [hsvc] at h
    exact h
  have hdup1 : (s1.db.emailLogs.find? (fun r =>
      r.gmailConnectionId == conn.id && r.messageId == msg1.id)).isSome := by
    rw [hflogs]; exact hdup
  have hnew1 : s1.db.emailLogs.find? (fun r =>
      r.gmailConnectionId == conn.id && r.messageId == msg2.id) = none := by
    rw [hflogs]; exact hnew
  have hstep1 := processNewMessageRoute_dup env s1 conn.id r1 msg1 hget1 hdup1
  have hstep2 := processNewMessageRoute_new env s1 conn.id r2 msg2 hget2 hnew1
  have hpr : processHistory processNewMessageRoute env s1 conn.id
      hist.history =
      (routeNewFinal env s1 conn.id msg2,
       [Act.getMessageCall r1.id] ++
         routeNewActs env s1 conn.id r2 msg2) := by
    rw [processHistory_eq, hrefs]
    show procFold processNewMessageRoute env conn.id (s1, []) [r1, r2] = _
    unfold procFold
    rw [List.foldl_cons, List.foldl_cons, List.foldl_nil]
    dsimp only
    rw [hstep1]
    dsimp only
    rw [hstep2]
    simp
  have heq : handleGmailNotification env s addr hid =
      ⟨updateConnection (processHistory processNewMessageRoute env s1 conn.id
          hist.history).1 conn.id (fun c =>
          { c with gmailHistoryId := some hist.historyId
                   lastSyncedAt := some env.now
                   updatedAt := env.now }),
       acts0 ++ [.getHistoryCall (jsOr conn.gmailHistoryId hid)] ++
         (processHistory processNewMessageRoute env s1 conn.id
           hist.history).2 ++
         [.updateCursor conn.id hist.historyId],
       200, true, none⟩ := by
    unfold handleGmailNotification
    rw [hfound]
    dsimp only
    rw [hsvc]
    dsimp only
    rw [hhist]
  have hacts : (handleGmailNotification env s addr hid).actions =
      acts0 ++ [Act.getHistoryCall (jsOr conn.gmailHistoryId hid)] ++
      ([Act.getMessageCall r1.id] ++
        routeNewActs env s1 conn.id r2 msg2) ++
      [Act.updateCursor conn.id hist.historyId] := by
    rw [heq]
    dsimp only
    rw [hpr]
  have hmne : (msg2.id == msg1.id) = false := by
    simp [hne.symm]
  have hacts0 : ∀ p : Act → Bool,
      (∀ c, p (Act.tokenRefreshPersist c) = false) → acts0.countP p = 0 := by
    intro p hp
    have h := createService_acts env s conn.id
    rw [hsvc] at h
    dsimp only at h
    rcases h with h | h
    · rw [h]; rfl
    · rw [h]; simp [hp]
  refine ⟨by rw [heq], ?_, ?_, ?_, ?_, ?_⟩
  · rw [hacts]
    simp only [List.countP_append]
    rw [hacts0 _ (fun c => rfl),
      routeNewActs_countP_zero env s1 conn.id r2 msg2 _ rfl
        (by simp [isInsertLog, hmne]) (fun wid url sig st => rfl)
        (fun mid => rfl) (fun mid => rfl)]
    rfl
  · rw [hacts]
    simp only [List.countP_append]
    rw [hacts0 _ (fun c => rfl),
      routeNewActs_countP_zero env s1 conn.id r2 msg2 _ rfl rfl
        (by intro wid url sig st; simp [isPostData, hmne])
        (fun mid => rfl) (fun mid => rfl)]
    rfl
  · rw [hacts]
    exact List.countP_pos.mpr ⟨Act.getMessageCall r1.id, by simp,
      by simp [isGetMessage]⟩
  · rw [heq]
    dsimp only [updateConnection]
    rw [hpr]
    dsimp only
    rw [routeNewFinal_logs, routeNewState_logs, List.map_append, hflogs]
    rfl
  · rw [hacts]
    simp only [List.countP_append]
    rw [hacts0 _ (fun c => rfl),
      routeNewActs_post_count env s1 conn.id r2 msg2 w st
        (by rw [hfweb]; exact hnd) (by rw [hfweb]; exact hw)
        hwc hwa hws hok]
    rfl

/-- The C2 scenario: an already-logged `m1` and a fresh `m2` in one
delta. -/
def envC2 : Env :=
  { env0 with historyList := fun _ => .ok (mkDelta ["m1", "m2"] "200")
              usersMessagesGet := fun i => .ok (mkMsg i) }

/-- The C2 starting state: one connection, `m1` already logged, one
active subscription. -/
def sC2 : Sys :=
  ⟨⟨[conn0], [mkLoggedRow "c1" "m1"], [], [wh0]⟩, 0⟩

theorem reprocess_skips_logged_but_refetches_witness :
    (handleGmailNotification envC2 sC2 "a@x.com" "100").status = 200 ∧
    ((handleGmailNotification envC2 sC2 "a@x.com" "100").actions.countP
      (isInsertLog conn0.id (mkMsg "m1").id)) = 0 ∧
    ((handleGmailNotification envC2 sC2 "a@x.com" "100").actions.countP
      (isPostData (mkMsg "m1").id)) = 0 ∧
    1 ≤ ((handleGmailNotification envC2 sC2 "a@x.com" "100").actions.countP
      (isGetMessage (MessageRef.mk "m1").id)) ∧
    (handleGmailNotification envC2 sC2 "a@x.com" "100").sys.db.emailLogs.map
        (fun r => r.messageId)
      = sC2.db.emailLogs.map (fun r => r.messageId) ++ [(mkMsg "m2").id] ∧
    ((handleGmailNotification envC2 sC2 "a@x.com" "100").actions.countP
      (fun a => isPostTo wh0.id a && isPostData (mkMsg "m2").id a)) = 1 :=
  reprocess_skips_logged_but_refetches envC2 sC2 "a@x.com" "100" conn0
    sC2 [] (mkDelta ["m1", "m2"] "200") (MessageRef.mk "m1")
    (MessageRef.mk "m2") (mkMsg "m1") (mkMsg "m2") wh0 200
    rfl rfl rfl rfl rfl rfl (by decide) (by decide) rfl (by decide)
    (List.mem_cons_self _ _) rfl rfl (by decide) rfl

/-! ## Witness fixtures -/

/-- An empty database. -/
def sEmpty : Sys := ⟨⟨[], [], [], []⟩, 0⟩

/-- Just the healthy connection `c1`. -/
def sOne : Sys := ⟨⟨[conn0], [], [], []⟩, 0⟩

/-- The healthy connection with its active flag cleared. -/
def connInactive : GmailConnection := { conn0 with isActive := false }

/-- A database holding only the inactive connection. -/
def sInactive : Sys := ⟨⟨[connInactive], [], [], []⟩, 0⟩

/-- A concrete `email.received` payload. -/
def payload0 : WebhookPayload :=
  mkReceivedPayload env0 "u0" (parseMessage env0.decode (mkMsg "m1"))

theorem email_log_dedup_is_application_level_witness :
    parsedEmailsTable.hasUniqueOn ["message_id"] = true ∧
    parsedEmailsTable.hasUniqueOn ["gmail_connection_id", "message_id"]
        = false ∧
    emailLogTable.hasUniqueOn ["message_id"] = false ∧
    processNewMessageRoute envC2 sC2 "c1" (MessageRef.mk "m1") =
      (sC2, [.getMessageCall (MessageRef.mk "m1").id]) :=
  email_log_dedup_is_application_level envC2 sC2 "c1" (MessageRef.mk "m1")
    (mkMsg "m1") rfl (by decide)

theorem delta_fetch_failure_fails_pass_witness :
    handleGmailNotification env0 sOne "a@x.com" "100" =
      ⟨sOne, [] ++ [.getHistoryCall (jsOr conn0.gmailHistoryId "100")], 500,
       false, some ("Failed to get history: " ++ "none")⟩ :=
  delta_fetch_failure_fails_pass env0 sOne "a@x.com" "100" conn0 "none"
    sOne [] rfl rfl rfl

theorem notification_discard_behaviour_witness :
    handleGmailNotification env0 sEmpty "b@x.com" "100" =
      ⟨sEmpty, [], 404, false, some "Gmail connection not found"⟩ ∧
    pollerHandleNotification env0 sEmpty "b@x.com" "100" =
      (sEmpty, [.ackMessage], true) ∧
    (handleGmailNotification envC2 sInactive "a@x.com" "100").status = 200 ∧
    (handleGmailNotification envC2 sInactive "a@x.com" "100").success
        = true :=
  notification_discard_behaviour env0 sEmpty "b@x.com" "100" rfl
    envC2 sInactive "a@x.com" "100" connInactive rfl rfl sInactive [] rfl
    (mkDelta ["m1", "m2"] "200") rfl

theorem stop_watch_frame_witness :
    stopGmailAPIWatch env0 sOne conn0 =
      (updateConnection sOne conn0.id (fun c =>
        { c with gmailWatchExpiration := none, updatedAt := env0.now }),
       [] ++ [.watchStop conn0.id, .clearWatch conn0.id], none) ∧
    (stopGmailAPIWatch env0 sOne conn0).1.db.connections.map
        (fun c => c.gmailHistoryId)
      = sOne.db.connections.map (fun c => c.gmailHistoryId) ∧
    (stopGmailAPIWatch env0 sOne conn0).1.db.connections.map
        (fun c => c.isActive)
      = sOne.db.connections.map (fun c => c.isActive) ∧
    (stopGmailAPIWatch env0 sOne conn0).1.db.connections.map
        (fun c => c.gmailRefreshToken)
      = sOne.db.connections.map (fun c => c.gmailRefreshToken) ∧
    (stopGmailAPIWatch env0 sOne conn0).1.db.emailLogs
      = sOne.db.emailLogs :=
  stop_watch_frame env0 sOne conn0 sOne [] rfl rfl

theorem fanout_isolation_and_pass_completion_witness :
    (sendWebhooksForConnection envC2 sC2.db "c1" payload0).countP
        (isPostTo wh0.id) = 1 ∧
    (handleGmailNotification envC2 sC2 "a@x.com" "100").status = 200 ∧
    (handleGmailNotification envC2 sC2 "a@x.com" "100").success = true :=
  fanout_isolation_and_pass_completion envC2 sC2.db "c1" payload0 wh0 200
    (by decide) (List.mem_cons_self _ _) rfl rfl (by decide) rfl
    sC2 "a@x.com" "100" conn0 sC2 [] (mkDelta ["m1", "m2"] "200")
    rfl rfl rfl

theorem cursor_overwritten_once_after_processing_witness :
    (handleGmailNotification envC2 sC2 "a@x.com" "100").status = 200 ∧
    (∀ c ∈ (handleGmailNotification envC2 sC2 "a@x.com" "100").sys.db.connections,
      c.id = conn0.id →
        c.gmailHistoryId = some (mkDelta ["m1", "m2"] "200").historyId) ∧
    (∃ pre, (handleGmailNotification envC2 sC2 "a@x.com" "100").actions =
        pre ++ [.updateCursor conn0.id (mkDelta ["m1", "m2"] "200").historyId] ∧
      pre.countP isCursorWrite = 0) :=
  cursor_overwritten_once_after_processing envC2 sC2 "a@x.com" "100" conn0
    sC2 [] (mkDelta ["m1", "m2"] "200") rfl rfl rfl
